/-
  Verification of the stream-bridging hubs of tanstack-robot-space.

  The repository bridges gRPC telemetry streams to HTTP/SSE consumers through
  five per-topic hubs:
    - status hub        (src/server/robotStatusHub.ts)
    - robot-state hub   (src/unnamed/part_010)
    - floor-topology hub(src/unnamed/part_008, second section)
    - lidar hub         (src/unnamed/part_008, third section)
    - occupancy-map hub (src/server/mapHub.ts)
  plus a shared rate-limited retry logger (src/unnamed/part_008, first section).

  This file embeds the payload normalizers and the hub event-handling logic as
  executable Lean definitions and proves the specification claims about them.

  Modelling conventions:
  - JavaScript numbers are modelled exactly, as `JsNum`: either a finite
    rational or one of NaN / +Infinity / -Infinity.  IEEE rounding and overflow
    are not modelled; no verified claim depends on them.
  - A raw wire field of TypeScript type `unknown` is `Option JsVal` (or
    `Option JsNum` for fields that the decoder only ever fills with numbers):
    `none` stands for an absent field (`undefined`), which satisfies the
    JavaScript `value == null` test and for which `Number(value)` is NaN.
  - `Math.atan2` is transcendental; the pose normalizer takes the whole
    `yawFromQuaternionZUp` conversion as an explicit function parameter.  No
    claim depends on the yaw value.
  - The hubs' module-level mutable variables become fields of a per-hub state
    structure; each gRPC / timer event handler becomes a step function
    `State → State × List Output`, where outputs record the externally visible
    effects (publishing to subscribers, scheduling a reconnect timer,
    attempting a connection).
-/
import Mathlib

/-- A JavaScript number: a finite (exact) rational, NaN, or an infinity. -/
inductive JsNum where
  | finite (q : ℚ)
  | nan
  | posInf
  | negInf
deriving DecidableEq, Repr

/-- `Number.isFinite`. -/
def jsIsFinite : JsNum → Bool
  | JsNum.finite _ => true
  | _ => false

/-- A JavaScript value as far as the normalizers inspect one: a number, a
string, a boolean, a byte buffer (`Uint8Array`/`Buffer`), or anything else. -/
inductive JsVal where
  | num (n : JsNum)
  | str (s : String)
  | bool (b : Bool)
  | bytes (bs : List ℕ)
  | obj
deriving DecidableEq, Repr

/-- `Number(value)` applied to a possibly-absent numeric field:
`Number(undefined)` is NaN. -/
def jsToNumber : Option JsNum → JsNum
  | none => JsNum.nan
  | some n => n

/-- JavaScript `String(n)` on a number.  Representative formatting only (no
claim depends on the printed form of a number). -/
def jsNumToString : JsNum → String
  | JsNum.finite q => toString q
  | JsNum.nan => "NaN"
  | JsNum.posInf => "Infinity"
  | JsNum.negInf => "-Infinity"

/-- JavaScript `String(v)` on a non-null value.  Representative formatting
only; the normalizers apply it to seq values that are neither string nor
number. -/
def jsValToString : JsVal → String
  | JsVal.num n => jsNumToString n
  | JsVal.str s => s
  | JsVal.bool b => if b then "true" else "false"
  | JsVal.bytes _ => ""
  | JsVal.obj => "[object Object]"

/-- JavaScript truthiness of a possibly-absent value (`Boolean(v)`). -/
def jsTruthy : Option JsVal → Bool
  | none => false
  | some (JsVal.num n) =>
      match n with
      | JsNum.finite q => decide (q ≠ 0)
      | JsNum.nan => false
      | _ => true
  | some (JsVal.str s) => decide (s ≠ "")
  | some (JsVal.bool b) => b
  | some (JsVal.bytes _) => true
  | some JsVal.obj => true

/-- `normalizeSeq` — identical in mapHub.ts, the floor-topology hub, and
(inlined) in the status, state, and lidar hubs: a string stays itself, a
number or other non-null value is stringified, and an absent seq becomes "0".
-/
def normalizeSeq : Option JsVal → String
  | some (JsVal.str s) => s
  | some (JsVal.num n) => jsNumToString n
  | some v => jsValToString v
  | none => "0"

/-- `numberOrDefault` (part_010 / mapHub.ts): an absent (`== null`) value
resolves to the given default, a present finite number to itself, and a
present non-finite number to null. -/
def numberOrDefault (value : Option JsNum) (defaultValue : ℚ) : Option ℚ :=
  match value with
  | none => some defaultValue
  | some (JsNum.finite q) => some q
  | some _ => none

/-- `numberRequired` (part_010 / mapHub.ts): null when absent or non-finite,
otherwise the finite value. -/
def numberRequired (value : Option JsNum) : Option ℚ :=
  match value with
  | none => none
  | some (JsNum.finite q) => some q
  | some _ => none

/-- `numberOrNull` (floor-topology hub in part_008): same as
`numberRequired` (checks `== null` first, then finiteness). -/
def numberOrNull (value : Option JsNum) : Option ℚ :=
  numberRequired value

/- ### Status normalizer (src/server/robotStatusHub.ts) -/

/-- `RawRateMetric` of robotStatusHub.ts. -/
structure RawRateMetric where
  id : Option JsVal
  hz : Option JsNum
  target_hz : Option JsNum
deriving DecidableEq, Repr

/-- `RawStatusUpdate` of robotStatusHub.ts.  `rates := none` stands for an
absent or non-array value (`Array.isArray` fails ⇒ treated as `[]`). -/
structure RawStatusUpdate where
  timestamp_unix_ms : Option JsNum
  seq : Option JsVal
  cpu_percent : Option JsNum
  voltage_v : Option JsNum
  rates : Option (List RawRateMetric)
deriving DecidableEq, Repr

/-- A validated per-rate metric: `{ hz }` or `{ hz, targetHz }`. -/
structure RateMetric where
  hz : ℚ
  targetHz : Option ℚ
deriving DecidableEq, Repr

/-- `RobotStatus` (src/lib/robotStatus.ts): the validated status snapshot.
`rates` is the insertion-ordered record; a repeated id overwrites in place. -/
structure RobotStatus where
  timestampUnixMs : ℚ
  seq : String
  cpuPercent : ℚ
  rates : List (String × RateMetric)
  voltageV : Option ℚ
deriving DecidableEq, Repr

/-- `m[id] = v` on a JavaScript object used as a string-keyed record:
overwrite the existing key in place, else append (insertion order kept). -/
def recordSet {α : Type} (m : List (String × α)) (id : String) (v : α) :
    List (String × α) :=
  match m with
  | [] => [(id, v)]
  | (k, w) :: rest =>
      if k = id then (k, v) :: rest else (k, w) :: recordSet rest id v

/-- The `for (const metric of ratesRaw)` loop of `normalizeStatusUpdate`. -/
def buildRates (ratesRaw : List RawRateMetric) : List (String × RateMetric) :=
  ratesRaw.foldl
    (fun acc metric =>
      match metric.id with
      | some (JsVal.str id) =>
          match jsToNumber metric.hz with
          | JsNum.finite hz =>
              match jsToNumber metric.target_hz with
              | JsNum.finite targetHz => recordSet acc id ⟨hz, some targetHz⟩
              | _ => recordSet acc id ⟨hz, none⟩
          | _ => acc
      | _ => acc)
    []

/-- `normalizeStatusUpdate` (robotStatusHub.ts): requires finite
`timestamp_unix_ms` and `cpu_percent`; coerces seq; keeps only rate metrics
with a string id and finite hz; sets `voltageV` only when `Number(voltage_v)`
is finite (an absent voltage is NaN, hence left out). -/
def normalizeStatusUpdate (update : RawStatusUpdate) : Option RobotStatus :=
  match jsToNumber update.timestamp_unix_ms with
  | JsNum.finite timestampUnixMs =>
    match jsToNumber update.cpu_percent with
    | JsNum.finite cpuPercent =>
      let seq := normalizeSeq update.seq
      let rates := buildRates (update.rates.getD [])
      let voltageV : Option ℚ :=
        match jsToNumber update.voltage_v with
        | JsNum.finite v => some v
        | _ => none
      some ⟨timestampUnixMs, seq, cpuPercent, rates, voltageV⟩
    | _ => none
  | _ => none

/- ### Pose normalizer (src/unnamed/part_010, identical in mapHub.ts) -/

/-- `RawPose3D`. -/
structure RawPose3D where
  frame_id : Option JsVal
  x : Option JsNum
  y : Option JsNum
  z : Option JsNum
  qx : Option JsNum
  qy : Option JsNum
  qz : Option JsNum
  qw : Option JsNum
deriving DecidableEq, Repr

/-- `Pose3D` (src/lib/robotState.ts): a validated pose with the derived yaw.
The yaw is a JavaScript number produced by `Math.atan2`. -/
structure Pose3D where
  frameId : String
  x : ℚ
  y : ℚ
  z : ℚ
  qx : ℚ
  qy : ℚ
  qz : ℚ
  qw : ℚ
  yawZ : JsNum
deriving DecidableEq, Repr

/-- Optional chaining on a possibly-absent raw pose record: `p?.x`. -/
def poseField (raw : Option RawPose3D) (f : RawPose3D → Option JsNum) :
    Option JsNum :=
  match raw with
  | none => none
  | some p => f p

/-- `normalizePose3D` (part_010, identical in mapHub.ts): scalar fields
absent from the wire resolve to the proto3 defaults (0, and 1 for qw); a
present non-finite scalar rejects the pose.  `yawFn` stands for
`yawFromQuaternionZUp`, which computes
`Math.atan2(2*(qw*qz + qx*qy), 1 - 2*(qy*qy + qz*qz))`. -/
def normalizePose3D (yawFn : ℚ → ℚ → ℚ → ℚ → JsNum)
    (raw : Option RawPose3D) : Option Pose3D :=
  let frameId :=
    match raw with
    | some p =>
        match p.frame_id with
        | some (JsVal.str s) => s
        | _ => ""
    | none => ""
  match numberOrDefault (poseField raw RawPose3D.x) 0,
        numberOrDefault (poseField raw RawPose3D.y) 0,
        numberOrDefault (poseField raw RawPose3D.z) 0,
        numberOrDefault (poseField raw RawPose3D.qx) 0,
        numberOrDefault (poseField raw RawPose3D.qy) 0,
        numberOrDefault (poseField raw RawPose3D.qz) 0,
        numberOrDefault (poseField raw RawPose3D.qw) 1 with
  | some x, some y, some z, some qx, some qy, some qz, some qw =>
      some ⟨frameId, x, y, z, qx, qy, qz, qw, yawFn qx qy qz qw⟩
  | _, _, _, _, _, _, _ => none

/- ### Robot-state normalizer (src/unnamed/part_010) -/

/-- `RawJointAngle`. -/
structure RawJointAngle where
  joint_name : Option JsVal
  position_rad : Option JsNum
deriving DecidableEq, Repr

/-- `RawRobotStateUpdate`.  `wheel_angles := none` stands for an absent or
non-array value. -/
structure RawRobotStateUpdate where
  timestamp_unix_ms : Option JsNum
  seq : Option JsVal
  pose : Option RawPose3D
  pose_odom : Option RawPose3D
  wheel_angles : Option (List RawJointAngle)
deriving DecidableEq, Repr

/-- `RobotState` (src/lib/robotState.ts). -/
structure RobotState where
  timestampUnixMs : ℚ
  seq : String
  pose : Pose3D
  wheelAnglesRad : List (String × ℚ)
deriving DecidableEq, Repr

/-- The `for (const wa of wheelAnglesRaw)` loop of
`normalizeRobotStateUpdate`. -/
def buildWheelAngles (raw : List RawJointAngle) : List (String × ℚ) :=
  raw.foldl
    (fun acc wa =>
      match wa.joint_name with
      | some (JsVal.str name) =>
          match numberOrDefault wa.position_rad 0 with
          | some pos => recordSet acc name pos
          | none => acc
      | _ => acc)
    []

/-- `normalizeRobotStateUpdate` (part_010): requires a finite timestamp and a
valid pose (taken from `pose`, falling back to the legacy `pose_odom`);
malformed wheel-angle entries are dropped from the record. -/
def normalizeRobotStateUpdate (yawFn : ℚ → ℚ → ℚ → ℚ → JsNum)
    (raw : RawRobotStateUpdate) : Option RobotState :=
  match numberRequired raw.timestamp_unix_ms with
  | none => none
  | some timestampUnixMs =>
    let seq := normalizeSeq raw.seq
    match normalizePose3D yawFn (raw.pose.orElse (fun _ => raw.pose_odom)) with
    | none => none
    | some pose =>
      some ⟨timestampUnixMs, seq, pose, buildWheelAngles (raw.wheel_angles.getD [])⟩

/- ### Occupancy-map normalizer (src/server/mapHub.ts) -/

/-- `RawMapUpdate`. -/
structure RawMapUpdate where
  timestamp_unix_ms : Option JsNum
  seq : Option JsVal
  frame_id : Option JsVal
  resolution_m_per_px : Option JsNum
  width : Option JsNum
  height : Option JsNum
  origin : Option RawPose3D
  png : Option JsVal
deriving DecidableEq, Repr

/-- `OccupancyMap` (src/lib/occupancyMap.ts). -/
structure OccupancyMap where
  timestampUnixMs : ℚ
  seq : String
  frameId : String
  resolutionMPerPx : ℚ
  width : ℚ
  height : ℚ
  origin : Pose3D
  pngBase64 : String
deriving DecidableEq, Repr

/-- `normalizePngBase64` (mapHub.ts): a string payload is trimmed (empty after
trimming ⇒ reject); a byte payload is base64-encoded (`b64` stands for
`Buffer.toString('base64')`, empty result ⇒ reject); anything else rejects. -/
def normalizePngBase64 (b64 : List ℕ → String) (png : Option JsVal) :
    Option String :=
  match png with
  | some (JsVal.str s) =>
      let trimmed := s.trim
      if trimmed = "" then none else some trimmed
  | some (JsVal.bytes bs) =>
      let encoded := b64 bs
      if encoded = "" then none else some encoded
  | _ => none

/-- `normalizeMapUpdate` (mapHub.ts): finite timestamp required; resolution,
width, and height must be finite and strictly positive; the origin pose and a
non-empty png payload are required. -/
def normalizeMapUpdate (yawFn : ℚ → ℚ → ℚ → ℚ → JsNum)
    (b64 : List ℕ → String) (raw : RawMapUpdate) : Option OccupancyMap :=
  match numberRequired raw.timestamp_unix_ms with
  | none => none
  | some timestampUnixMs =>
    let seq := normalizeSeq raw.seq
    let frameId :=
      match raw.frame_id with
      | some (JsVal.str s) => s
      | _ => ""
    match numberRequired raw.resolution_m_per_px with
    | none => none
    | some resolutionMPerPx =>
      if resolutionMPerPx ≤ 0 then none else
      match numberRequired raw.width with
      | none => none
      | some width =>
        if width ≤ 0 then none else
        match numberRequired raw.height with
        | none => none
        | some height =>
          if height ≤ 0 then none else
          match normalizePose3D yawFn raw.origin with
          | none => none
          | some origin =>
            match normalizePngBase64 b64 raw.png with
            | none => none
            | some pngBase64 =>
              some ⟨timestampUnixMs, seq, frameId, resolutionMPerPx,
                    width, height, origin, pngBase64⟩

/- ### Floor-topology normalizer (src/unnamed/part_008, second section) -/

/-- The contract constant `EXPECTED_POLYLINE_FRAME_ID`. -/
def EXPECTED_POLYLINE_FRAME_ID : String := "base_footprint"

/-- `RawPoint3`. -/
structure RawPoint3 where
  x : Option JsNum
  y : Option JsNum
  z : Option JsNum
deriving DecidableEq, Repr

/-- `RawFloorPolyline`.  `points := none` stands for an absent or non-array
value (both are treated as the empty list by the source). -/
structure RawFloorPolyline where
  ns : Option JsVal
  id : Option JsNum
  frame_id : Option JsVal
  points : Option (List RawPoint3)
  closed : Option JsVal
deriving DecidableEq, Repr

/-- `RawFloorTopologyUpdate`. -/
structure RawFloorTopologyUpdate where
  timestamp_unix_ms : Option JsNum
  seq : Option JsVal
  polylines : Option (List RawFloorPolyline)
deriving DecidableEq, Repr

/-- `Point3` (src/lib/floorTopology.ts). -/
structure Point3 where
  x : ℚ
  y : ℚ
  z : ℚ
deriving DecidableEq, Repr

/-- `FloorPolyline` (src/lib/floorTopology.ts). -/
structure FloorPolyline where
  ns : String
  id : ℚ
  frameId : String
  points : List Point3
  closed : Bool
deriving DecidableEq, Repr

/-- `FloorTopology` (src/lib/floorTopology.ts). -/
structure FloorTopology where
  timestampUnixMs : ℚ
  seq : String
  polylines : List FloorPolyline
deriving DecidableEq, Repr

/-- `normalizePoint3`: all three coordinates must be present and finite, else
the point is rejected (dropped from its polyline). -/
def normalizePoint3 (raw : RawPoint3) : Option Point3 :=
  match numberOrNull raw.x, numberOrNull raw.y, numberOrNull raw.z with
  | some x, some y, some z => some ⟨x, y, z⟩
  | _, _, _ => none

/-- The id coercion of `normalizePolyline`:
`typeof idRaw === 'number' ? idRaw : Number(idRaw ?? 0)` — a present number
stays itself, an absent id coerces to 0. -/
def polylineIdNum (raw : RawFloorPolyline) : JsNum :=
  match raw.id with
  | some n => n
  | none => JsNum.finite 0

/-- The frame read of `normalizePolyline`:
`typeof p?.frame_id === 'string' ? p.frame_id : ''`. -/
def polylineFrameId (raw : RawFloorPolyline) : String :=
  match raw.frame_id with
  | some (JsVal.str s) => s
  | _ => ""

/-- `normalizePolyline`: `.ok none` is the `return null` per-record drop
(invalid id: non-finite or negative after coercion, with an absent id
coercing to 0); `.error` is the thrown contract violation when the declared
frame differs from `EXPECTED_POLYLINE_FRAME_ID` (a non-string frame_id reads
as `""`).  The frame check runs only after the id check. -/
def normalizePolyline (raw : RawFloorPolyline) :
    Except String (Option FloorPolyline) :=
  let ns :=
    match raw.ns with
    | some (JsVal.str s) => s
    | _ => ""
  match polylineIdNum raw with
  | JsNum.finite id =>
    if id < 0 then Except.ok none
    else
      let frameId := polylineFrameId raw
      if frameId ≠ EXPECTED_POLYLINE_FRAME_ID then
        Except.error
          ("Unexpected FloorPolyline.frame_id=" ++ frameId ++ " ns=" ++ ns ++
           " (expected " ++ EXPECTED_POLYLINE_FRAME_ID ++ ")")
      else
        let points := (raw.points.getD []).filterMap normalizePoint3
        Except.ok (some ⟨ns, id, frameId, points, jsTruthy raw.closed⟩)
  | _ => Except.ok none

/-- The `for (const p of arr)` loop of `normalizeFloorTopologyUpdate`: a
thrown frame violation aborts the whole loop; a `null` polyline is skipped. -/
def normalizePolylines : List RawFloorPolyline →
    Except String (List FloorPolyline)
  | [] => Except.ok []
  | p :: rest =>
    match normalizePolyline p with
    | Except.error e => Except.error e
    | Except.ok none => normalizePolylines rest
    | Except.ok (some pl) =>
        match normalizePolylines rest with
        | Except.error e => Except.error e
        | Except.ok pls => Except.ok (pl :: pls)

/-- `normalizeFloorTopologyUpdate`: `.ok none` drops the record (invalid
timestamp); the polyline loop may throw a contract violation, which escapes
to the data handler. -/
def normalizeFloorTopologyUpdate (raw : RawFloorTopologyUpdate) :
    Except String (Option FloorTopology) :=
  match numberOrNull raw.timestamp_unix_ms with
  | none => Except.ok none
  | some timestampUnixMs =>
    let seq := normalizeSeq raw.seq
    match normalizePolylines (raw.polylines.getD []) with
    | Except.error e => Except.error e
    | Except.ok polylines =>
        Except.ok (some ⟨timestampUnixMs, seq, polylines⟩)

/- ### Lidar normalizer (src/unnamed/part_008, third section) -/

/-- `RawLidarUpdate`.  `ranges := none` stands for an absent or non-array
value (the source rejects the record in that case). -/
structure RawLidarUpdate where
  timestamp_unix_ms : Option JsNum
  seq : Option JsVal
  frame_id : Option JsVal
  angle_min : Option JsNum
  angle_increment : Option JsNum
  range_min : Option JsNum
  range_max : Option JsNum
  ranges : Option (List JsNum)
deriving DecidableEq, Repr

/-- `LidarScan` (src/lib/lidarScan.ts).  The ranges keep whatever numbers the
wire carried, including NaN and the infinities. -/
structure LidarScan where
  timestampUnixMs : ℚ
  seq : String
  frameId : String
  angleMin : ℚ
  angleIncrement : ℚ
  rangeMin : ℚ
  rangeMax : ℚ
  ranges : List JsNum
deriving DecidableEq, Repr

/-- `normalizeLidarUpdate`: the scalar header fields must be finite
(`angle_min` may be absent and then defaults to 0; the others reject when
absent, since `Number(undefined)` is NaN); every element of `ranges` is
passed through `Number()` and pushed unchecked — non-finite readings are kept
as-is. -/
def normalizeLidarUpdate (raw : RawLidarUpdate) : Option LidarScan :=
  match jsToNumber raw.timestamp_unix_ms with
  | JsNum.finite timestampUnixMs =>
    let seq := normalizeSeq raw.seq
    let frameId :=
      match raw.frame_id with
      | some (JsVal.str s) => s
      | _ => ""
    let angleMinNum : JsNum :=
      match raw.angle_min with
      | none => JsNum.finite 0
      | some n => n
    match angleMinNum with
    | JsNum.finite angleMin =>
      match jsToNumber raw.angle_increment with
      | JsNum.finite angleIncrement =>
        match jsToNumber raw.range_min with
        | JsNum.finite rangeMin =>
          match jsToNumber raw.range_max with
          | JsNum.finite rangeMax =>
            match raw.ranges with
            | none => none
            | some rangesRaw =>
                some ⟨timestampUnixMs, seq, frameId, angleMin, angleIncrement,
                      rangeMin, rangeMax, rangesRaw.map (fun r => r)⟩
          | _ => none
        | _ => none
      | _ => none
    | _ => none
  | _ => none

/- ### Shared retry logger (src/unnamed/part_008, first section) -/

/-- `ONE_MIN_MS`. -/
def ONE_MIN_MS : ℤ := 60000

/-- `FIVE_MIN_MS`. -/
def FIVE_MIN_MS : ℤ := 300000

/-- The mutable closure state of `createRetryLogger`.  Times are unix
milliseconds. -/
structure RetryLoggerState where
  lastLoggedAt : Option ℤ
  nextWindowMs : ℤ
  suppressed : ℕ
  windowStart : ℤ
deriving DecidableEq, Repr

/-- One stderr line written by the logger: the reported count of suppressed
failures and the duration (ms) they were suppressed over. -/
structure LogLine where
  hidden : ℕ
  overMs : ℤ
deriving DecidableEq, Repr

/-- `createRetryLogger` / its internal `reset`: fresh state at the given
current time. -/
def createRetryLogger (now : ℤ) : RetryLoggerState :=
  ⟨none, ONE_MIN_MS, 0, now⟩

/-- `logFailure`: the first failure is logged immediately (`hidden=0
over=0s`); a failure within the current window is suppressed; a failure after
the window expires is logged together with the suppressed count and duration,
and widens the window to five minutes. -/
def logFailure (now : ℤ) (s : RetryLoggerState) :
    RetryLoggerState × Option LogLine :=
  match s.lastLoggedAt with
  | none => (⟨some now, ONE_MIN_MS, 0, now⟩, some ⟨0, 0⟩)
  | some last =>
    if now - last < s.nextWindowMs then
      ({ s with suppressed := s.suppressed + 1 }, none)
    else
      (⟨some now, FIVE_MIN_MS, 0, now⟩, some ⟨s.suppressed, now - s.windowStart⟩)

/-- `markSuccess`: resets the closure state and writes nothing. -/
def markSuccess (now : ℤ) (_s : RetryLoggerState) :
    RetryLoggerState × Option LogLine :=
  (createRetryLogger now, none)

/- ### Fan-out publish (identical `publish` in all five hubs) -/

/-- A registered subscriber callback, abstracted by whether invoking it
throws.  The hubs keep subscribers in a `Set` iterated in insertion order;
the list keeps that order. -/
structure Subscriber where
  sid : ℕ
  throws : Bool
deriving DecidableEq, Repr

/-- The `for (const listener of subscribers) listener(value)` loop: listeners
are invoked in registration order; none of the hubs wraps the call, so a
throwing listener aborts the loop and the exception escapes.  Returns the
ids invoked, in order, and whether an exception escaped. -/
def runListeners : List Subscriber → List ℕ × Bool
  | [] => ([], false)
  | sub :: rest =>
    if sub.throws then ([sub.sid], true)
    else
      let r := runListeners rest
      (sub.sid :: r.1, r.2)

/-- The observable outcome of one `publish(value)` call. -/
structure PublishResult (α : Type) where
  latest : Option α
  delivered : List ℕ
  raised : Bool
deriving Repr

/-- `publish` — identical in all five hubs: the latest-value cell is updated
strictly before the subscriber loop runs. -/
def hubPublish (α : Type) (subs : List Subscriber) (value : Option α) :
    PublishResult α :=
  let r := runListeners subs
  ⟨value, r.1, r.2⟩

/- ### Reconnect delay tiers -/

/-- `getReconnectDelayMs` — defined, character for character, in the map,
robot-state, lidar, and floor-topology hubs (the status hub has no such
function): attempts 1–5 use the configured base delay, 6–10 use 60 s, and
later attempts use 300 s.  `base` is `grpcReconnectMs`
(`UI_GATEWAY_GRPC_RECONNECT_MS`, default `DEFAULT_GRPC_RECONNECT_MS = 2000`).
-/
def getReconnectDelayMs (base : ℕ) (attempt : ℕ) : ℕ :=
  if attempt ≤ 5 then base
  else if attempt ≤ 10 then 60000
  else 300000

/-- `DEFAULT_GRPC_RECONNECT_MS` (src/lib/robotStatus.ts). -/
def DEFAULT_GRPC_RECONNECT_MS : ℕ := 2000

/- ### Status hub machine (src/server/robotStatusHub.ts) -/

namespace StatusHub

/-- The module-level mutable state of robotStatusHub.ts (for a started hub;
`ensureStarted` is a no-op once `started` is true).  `staleArmed` is whether
`staleTimer` holds a pending (unfired) timeout, `reconnectPending` likewise
for `reconnectTimer`, `activeCall` whether a stream is attached. -/
structure State where
  latestStatus : Option RobotStatus
  staleArmed : Bool
  reconnectPending : Bool
  activeCall : Bool
deriving DecidableEq, Repr

/-- Externally visible effects of a handler run. -/
inductive Output where
  | published (v : Option RobotStatus)
  | reconnectScheduled (delayMs : ℕ)
  | connectAttempted
deriving DecidableEq, Repr

/-- Events that re-enter the hub: `connectOk`/`connectFail` are a run of
`startGrpcLoop` (from `ensureStarted` or the reconnect timer, which nulls the
timer before calling it) whose stream opening succeeds/throws; `dataFrame`,
`streamError`, `streamEnd` are the stream events; `staleFire` is the stale
timer firing. -/
inductive Event where
  | connectOk
  | connectFail
  | dataFrame (raw : RawStatusUpdate)
  | streamError
  | streamEnd
  | staleFire

/-- `scheduleReconnect` (robotStatusHub.ts): idempotent while a timer is
pending; always uses the fixed `grpcReconnectMs` delay — the status hub keeps
no attempt counter and no tiering. -/
def scheduleReconnect (base : ℕ) (s : State) : State × List Output :=
  if s.reconnectPending then (s, [])
  else ({ s with reconnectPending := true }, [Output.reconnectScheduled base])

/-- `onDisconnect` (robotStatusHub.ts, on stream `error`/`end`): releases the
call and client and schedules a reconnect.  It does not publish anything —
the latest value stays in the cell until the stale timer fires. -/
def onDisconnect (base : ℕ) (s : State) : State × List Output :=
  scheduleReconnect base { s with activeCall := false }

/-- One event-handler run of the status hub. -/
def step (base : ℕ) (e : Event) (s : State) : State × List Output :=
  match e with
  | Event.connectOk =>
      if s.activeCall then (s, [])
      else ({ s with reconnectPending := false, activeCall := true },
            [Output.connectAttempted])
  | Event.connectFail =>
      if s.activeCall then (s, [])
      else
        let r := scheduleReconnect base { s with reconnectPending := false }
        (r.1, Output.connectAttempted :: r.2)
  | Event.dataFrame raw =>
      if ¬ s.activeCall then (s, [])
      else
        match normalizeStatusUpdate raw with
        | none => (s, [])
        | some v =>
            ({ s with latestStatus := some v, staleArmed := true },
             [Output.published (some v)])
  | Event.streamError => if ¬ s.activeCall then (s, []) else onDisconnect base s
  | Event.streamEnd => if ¬ s.activeCall then (s, []) else onDisconnect base s
  | Event.staleFire =>
      if ¬ s.staleArmed then (s, [])
      else ({ s with staleArmed := false, latestStatus := none },
            [Output.published none])

/-- `getRobotStatusSnapshot` on a started hub. -/
def getRobotStatusSnapshot (s : State) : Option RobotStatus :=
  s.latestStatus

/-- Run a list of events, accumulating outputs. -/
def run (base : ℕ) (s : State) : List Event → State × List Output
  | [] => (s, [])
  | e :: rest =>
    let r := step base e s
    let r2 := run base r.1 rest
    (r2.1, r.2 ++ r2.2)

end StatusHub

/- ### Robot-state hub machine (src/unnamed/part_010) -/

namespace StateHub

/-- The module-level mutable state of the robot-state hub.  This hub has no
staleness timer at all — no `staleTimer` variable, no `clearAsStale`, no
`scheduleStaleClear` exist in its source. -/
structure State where
  latestState : Option RobotState
  reconnectPending : Bool
  activeCall : Bool
  reconnectAttempt : ℕ
  gotDataSinceConnect : Bool
deriving DecidableEq, Repr

/-- Externally visible effects of a handler run. -/
inductive Output where
  | published (v : Option RobotState)
  | reconnectScheduled (delayMs : ℕ)
  | connectAttempted
deriving DecidableEq, Repr

/-- Events re-entering the hub.  There is no stale-timer event because the
source arms no stale timer. -/
inductive Event where
  | connectOk
  | connectFail
  | dataFrame (raw : RawRobotStateUpdate)
  | streamError
  | streamEnd

/-- `scheduleReconnect` (part_010): idempotent while pending; increments the
attempt counter and picks the tiered delay for the new attempt number. -/
def scheduleReconnect (base : ℕ) (s : State) : State × List Output :=
  if s.reconnectPending then (s, [])
  else
    let nextAttempt := s.reconnectAttempt + 1
    ({ s with reconnectAttempt := nextAttempt, reconnectPending := true },
     [Output.reconnectScheduled (getReconnectDelayMs base nextAttempt)])

/-- `onDisconnect` (part_010): releases the call and client and schedules a
reconnect; nothing is published — the last state stays in the cell. -/
def onDisconnect (base : ℕ) (s : State) : State × List Output :=
  scheduleReconnect base { s with activeCall := false }

/-- One event-handler run of the robot-state hub. -/
def step (base : ℕ) (yawFn : ℚ → ℚ → ℚ → ℚ → JsNum) (e : Event) (s : State) :
    State × List Output :=
  match e with
  | Event.connectOk =>
      if s.activeCall then (s, [])
      else ({ s with reconnectPending := false, activeCall := true,
                     gotDataSinceConnect := false },
            [Output.connectAttempted])
  | Event.connectFail =>
      if s.activeCall then (s, [])
      else
        let r := scheduleReconnect base { s with reconnectPending := false }
        (r.1, Output.connectAttempted :: r.2)
  | Event.dataFrame raw =>
      if ¬ s.activeCall then (s, [])
      else
        let s1 :=
          if s.gotDataSinceConnect then s
          else { s with gotDataSinceConnect := true, reconnectAttempt := 0 }
        match normalizeRobotStateUpdate yawFn raw with
        | none => (s1, [])
        | some v =>
            ({ s1 with latestState := some v }, [Output.published (some v)])
  | Event.streamError => if ¬ s.activeCall then (s, []) else onDisconnect base s
  | Event.streamEnd => if ¬ s.activeCall then (s, []) else onDisconnect base s

/-- `getRobotStateSnapshot` on a started hub. -/
def getRobotStateSnapshot (s : State) : Option RobotState :=
  s.latestState

/-- Run a list of events, accumulating outputs. -/
def run (base : ℕ) (yawFn : ℚ → ℚ → ℚ → ℚ → JsNum) (s : State) :
    List Event → State × List Output
  | [] => (s, [])
  | e :: rest =>
    let r := step base yawFn e s
    let r2 := run base yawFn r.1 rest
    (r2.1, r.2 ++ r2.2)

end StateHub

/- ### Occupancy-map hub machine (src/server/mapHub.ts) -/

namespace MapHub

/-- The module-level mutable state of mapHub.ts. -/
structure State where
  latestMap : Option OccupancyMap
  staleArmed : Bool
  reconnectPending : Bool
  activeCall : Bool
  reconnectAttempt : ℕ
  gotDataSinceConnect : Bool
deriving DecidableEq, Repr

/-- Externally visible effects of a handler run. -/
inductive Output where
  | published (v : Option OccupancyMap)
  | reconnectScheduled (delayMs : ℕ)
  | connectAttempted
deriving DecidableEq, Repr

/-- Events re-entering the hub. -/
inductive Event where
  | connectOk
  | connectFail
  | dataFrame (raw : RawMapUpdate)
  | streamError
  | streamEnd
  | staleFire

/-- `scheduleReconnect` (mapHub.ts): idempotent while pending; increments the
attempt counter and picks the tiered delay. -/
def scheduleReconnect (base : ℕ) (s : State) : State × List Output :=
  if s.reconnectPending then (s, [])
  else
    let nextAttempt := s.reconnectAttempt + 1
    ({ s with reconnectAttempt := nextAttempt, reconnectPending := true },
     [Output.reconnectScheduled (getReconnectDelayMs base nextAttempt)])

/-- `onDisconnect` (mapHub.ts): releases the call and client, publishes
`null` ("Clear on disconnect for staleness policy"), then schedules a
reconnect. -/
def onDisconnect (base : ℕ) (s : State) : State × List Output :=
  let s1 : State := { s with activeCall := false, latestMap := none }
  let r := scheduleReconnect base s1
  (r.1, Output.published none :: r.2)

/-- One event-handler run of the map hub. -/
def step (base : ℕ) (yawFn : ℚ → ℚ → ℚ → ℚ → JsNum) (b64 : List ℕ → String)
    (e : Event) (s : State) : State × List Output :=
  match e with
  | Event.connectOk =>
      if s.activeCall then (s, [])
      else ({ s with reconnectPending := false, activeCall := true,
                     gotDataSinceConnect := false },
            [Output.connectAttempted])
  | Event.connectFail =>
      if s.activeCall then (s, [])
      else
        let r := scheduleReconnect base { s with reconnectPending := false }
        (r.1, Output.connectAttempted :: r.2)
  | Event.dataFrame raw =>
      if ¬ s.activeCall then (s, [])
      else
        let s1 :=
          if s.gotDataSinceConnect then s
          else { s with gotDataSinceConnect := true, reconnectAttempt := 0 }
        match normalizeMapUpdate yawFn b64 raw with
        | none => (s1, [])
        | some v =>
            ({ s1 with latestMap := some v, staleArmed := true },
             [Output.published (some v)])
  | Event.streamError => if ¬ s.activeCall then (s, []) else onDisconnect base s
  | Event.streamEnd => if ¬ s.activeCall then (s, []) else onDisconnect base s
  | Event.staleFire =>
      if ¬ s.staleArmed then (s, [])
      else ({ s with staleArmed := false, latestMap := none },
            [Output.published none])

/-- `getOccupancyMapSnapshot` on a started hub. -/
def getOccupancyMapSnapshot (s : State) : Option OccupancyMap :=
  s.latestMap

/-- Run a list of events, accumulating outputs. -/
def run (base : ℕ) (yawFn : ℚ → ℚ → ℚ → ℚ → JsNum) (b64 : List ℕ → String)
    (s : State) : List Event → State × List Output
  | [] => (s, [])
  | e :: rest =>
    let r := step base yawFn b64 e s
    let r2 := run base yawFn b64 r.1 rest
    (r2.1, r.2 ++ r2.2)

end MapHub

/- ### Lidar hub machine (src/unnamed/part_008, third section) -/

namespace LidarHub

/-- The module-level mutable state of the lidar hub. -/
structure State where
  latestScan : Option LidarScan
  staleArmed : Bool
  reconnectPending : Bool
  activeCall : Bool
  reconnectAttempt : ℕ
  gotDataSinceConnect : Bool
deriving DecidableEq, Repr

/-- Externally visible effects of a handler run. -/
inductive Output where
  | published (v : Option LidarScan)
  | reconnectScheduled (delayMs : ℕ)
  | connectAttempted
deriving DecidableEq, Repr

/-- Events re-entering the hub. -/
inductive Event where
  | connectOk
  | connectFail
  | dataFrame (raw : RawLidarUpdate)
  | streamError
  | streamEnd
  | staleFire

/-- `scheduleReconnect` (lidar hub): idempotent while pending; increments the
attempt counter and picks the tiered delay. -/
def scheduleReconnect (base : ℕ) (s : State) : State × List Output :=
  if s.reconnectPending then (s, [])
  else
    let nextAttempt := s.reconnectAttempt + 1
    ({ s with reconnectAttempt := nextAttempt, reconnectPending := true },
     [Output.reconnectScheduled (getReconnectDelayMs base nextAttempt)])

/-- `onDisconnect` (lidar hub): releases the call and client, publishes
`null` ("Clear on disconnect for staleness policy"), then schedules a
reconnect. -/
def onDisconnect (base : ℕ) (s : State) : State × List Output :=
  let s1 : State := { s with activeCall := false, latestScan := none }
  let r := scheduleReconnect base s1
  (r.1, Output.published none :: r.2)

/-- One event-handler run of the lidar hub. -/
def step (base : ℕ) (e : Event) (s : State) : State × List Output :=
  match e with
  | Event.connectOk =>
      if s.activeCall then (s, [])
      else ({ s with reconnectPending := false, activeCall := true,
                     gotDataSinceConnect := false },
            [Output.connectAttempted])
  | Event.connectFail =>
      if s.activeCall then (s, [])
      else
        let r := scheduleReconnect base { s with reconnectPending := false }
        (r.1, Output.connectAttempted :: r.2)
  | Event.dataFrame raw =>
      if ¬ s.activeCall then (s, [])
      else
        let s1 :=
          if s.gotDataSinceConnect then s
          else { s with gotDataSinceConnect := true, reconnectAttempt := 0 }
        match normalizeLidarUpdate raw with
        | none => (s1, [])
        | some v =>
            ({ s1 with latestScan := some v, staleArmed := true },
             [Output.published (some v)])
  | Event.streamError => if ¬ s.activeCall then (s, []) else onDisconnect base s
  | Event.streamEnd => if ¬ s.activeCall then (s, []) else onDisconnect base s
  | Event.staleFire =>
      if ¬ s.staleArmed then (s, [])
      else ({ s with staleArmed := false, latestScan := none },
            [Output.published none])

/-- `getLidarScanSnapshot` on a started hub. -/
def getLidarScanSnapshot (s : State) : Option LidarScan :=
  s.latestScan

/-- Run a list of events, accumulating outputs. -/
def run (base : ℕ) (s : State) : List Event → State × List Output
  | [] => (s, [])
  | e :: rest =>
    let r := step base e s
    let r2 := run base r.1 rest
    (r2.1, r.2 ++ r2.2)

end LidarHub

/- ### Floor-topology hub machine (src/unnamed/part_008, second section) -/

namespace TopoHub

/-- The module-level mutable state of the floor-topology hub.  `fatalError`
mirrors the `fatalError: string | null` variable.  The purely diagnostic
`noDataTimer` (it only writes a debug line) and the retry-logger calls are
not modelled. -/
structure State where
  latestTopology : Option FloorTopology
  staleArmed : Bool
  reconnectPending : Bool
  activeCall : Bool
  reconnectAttempt : ℕ
  gotDataSinceConnect : Bool
  fatalError : Option String
deriving DecidableEq, Repr

/-- Externally visible effects of a handler run. -/
inductive Output where
  | published (v : Option FloorTopology)
  | reconnectScheduled (delayMs : ℕ)
  | connectAttempted
deriving DecidableEq, Repr

/-- Events re-entering the hub.  `consumerCall` is a `getFloorTopologySnapshot`
or `subscribeFloorTopology` call on a started hub (`ensureStarted` returns
immediately; neither call touches the connection state). -/
inductive Event where
  | connectOk
  | connectFail
  | dataFrame (raw : RawFloorTopologyUpdate)
  | streamError
  | streamEnd
  | staleFire
  | consumerCall

/-- `scheduleReconnect` (floor-topology hub): returns early while a timer is
pending or once the hub is fatal; otherwise increments the attempt counter
and schedules the tiered delay. -/
def scheduleReconnect (base : ℕ) (s : State) : State × List Output :=
  if s.reconnectPending then (s, [])
  else if s.fatalError.isSome then (s, [])
  else
    let nextAttempt := s.reconnectAttempt + 1
    ({ s with reconnectAttempt := nextAttempt, reconnectPending := true },
     [Output.reconnectScheduled (getReconnectDelayMs base nextAttempt)])

/-- `failFatal`: records the first fatal message, tears the call and client
down, and publishes `null` (`clearAsStale`).  A second call is a no-op. -/
def failFatal (msg : String) (s : State) : State × List Output :=
  if s.fatalError.isSome then (s, [])
  else
    ({ s with fatalError := some msg, activeCall := false,
              latestTopology := none },
     [Output.published none])

/-- `onDisconnect` (floor-topology hub): a no-op once fatal; otherwise tears
the call and client down, publishes `null` ("Clear on disconnect for
staleness policy"), and schedules a reconnect. -/
def onDisconnect (base : ℕ) (s : State) : State × List Output :=
  if s.fatalError.isSome then (s, [])
  else
    let s1 : State := { s with activeCall := false, latestTopology := none }
    let r := scheduleReconnect base s1
    (r.1, Output.published none :: r.2)

/-- One event-handler run of the floor-topology hub.  `startGrpcLoop` returns
before attempting anything when a call is active or the hub is fatal, so
`connectOk`/`connectFail` are guarded on both. -/
def step (base : ℕ) (e : Event) (s : State) : State × List Output :=
  match e with
  | Event.connectOk =>
      if s.activeCall then (s, [])
      else if s.fatalError.isSome then (s, [])
      else ({ s with reconnectPending := false, activeCall := true,
                     gotDataSinceConnect := false },
            [Output.connectAttempted])
  | Event.connectFail =>
      if s.activeCall then (s, [])
      else if s.fatalError.isSome then (s, [])
      else
        let r := scheduleReconnect base { s with reconnectPending := false }
        (r.1, Output.connectAttempted :: r.2)
  | Event.dataFrame raw =>
      if ¬ s.activeCall then (s, [])
      else if s.fatalError.isSome then (s, [])
      else
        let s1 :=
          if s.gotDataSinceConnect then s
          else { s with gotDataSinceConnect := true, reconnectAttempt := 0 }
        match normalizeFloorTopologyUpdate raw with
        | Except.ok none => (s1, [])
        | Except.ok (some v) =>
            ({ s1 with latestTopology := some v, staleArmed := true },
             [Output.published (some v)])
        | Except.error e => failFatal e s1
  | Event.streamError =>
      if ¬ s.activeCall then (s, []) else onDisconnect base s
  | Event.streamEnd =>
      if ¬ s.activeCall then (s, []) else onDisconnect base s
  | Event.staleFire =>
      if ¬ s.staleArmed then (s, [])
      else ({ s with staleArmed := false, latestTopology := none },
            [Output.published none])
  | Event.consumerCall => (s, [])

/-- `getFloorTopologySnapshot` on a started hub. -/
def getFloorTopologySnapshot (s : State) : Option FloorTopology :=
  s.latestTopology

/-- Run a list of events, accumulating outputs. -/
def run (base : ℕ) (s : State) : List Event → State × List Output
  | [] => (s, [])
  | e :: rest =>
    let r := step base e s
    let r2 := run base r.1 rest
    (r2.1, r.2 ++ r2.2)

end TopoHub

/- ### Sample values for witnesses and counterexamples -/

/-- Stand-in for `Math.atan2`-based `yawFromQuaternionZUp` in concrete
instantiations. -/
def yawStub : ℚ → ℚ → ℚ → ℚ → JsNum := fun _ _ _ _ => JsNum.finite 0

/-- Stand-in for `Buffer.toString('base64')` in concrete instantiations. -/
def b64Stub : List ℕ → String := fun _ => "AA=="

/-- A concrete validated pose. -/
def samplePose : Pose3D := ⟨"", 0, 0, 0, 0, 0, 0, 1, JsNum.finite 0⟩

/-- A concrete validated status snapshot. -/
def sampleStatus : RobotStatus := ⟨1000, "5", 10, [], none⟩

/-- A concrete validated robot state. -/
def sampleState : RobotState := ⟨1000, "5", samplePose, []⟩

/-- A concrete validated occupancy map. -/
def sampleMap : OccupancyMap := ⟨1000, "5", "map", 1, 100, 100, samplePose, "AA=="⟩

/-- A concrete validated lidar scan. -/
def sampleScan : LidarScan := ⟨1000, "5", "laser", 0, 1, 0, 10, [JsNum.finite 2]⟩

/-- A concrete validated floor topology. -/
def sampleTopology : FloorTopology := ⟨1000, "5", []⟩

/- ### C3 — fan-out fault isolation -/

/-- C3 counterexample: the claim states that a subscriber that throws does
not prevent delivery to later-registered subscribers and that publish does
not propagate the exception.  In every hub `publish` runs the bare loop
`for (const listener of subscribers) listener(value)`: with subscriber 1
registered before subscriber 2 and subscriber 1 throwing, only subscriber 1
is invoked and the exception escapes `publish`. -/
theorem publish_throwing_subscriber_blocks_delivery :
    (hubPublish ℕ [⟨1, true⟩, ⟨2, false⟩] (some 7)).delivered = [1]
    ∧ ¬ (2 ∈ (hubPublish ℕ [⟨1, true⟩, ⟨2, false⟩] (some 7)).delivered)
    ∧ (hubPublish ℕ [⟨1, true⟩, ⟨2, false⟩] (some 7)).raised = true := by
  refine ⟨rfl, ?_, rfl⟩
  decide

/-- C3 (amended): `publish` updates the latest-value cell strictly before the
subscriber loop; when no subscriber throws, every subscriber is invoked in
registration order and no exception escapes; when some subscriber throws,
the subscribers registered before it and the thrower itself are invoked, the
ones registered after it are skipped, and the exception propagates out of
`publish` (and hence out of the enclosing data/timer handler). -/
theorem publish_updates_cell_then_delivers_in_order (α : Type)
    (subs pre rest : List Subscriber) (t : Subscriber) (v : Option α)
    (hsplit : subs = pre ++ t :: rest)
    (hpre : ∀ u ∈ pre, u.throws = false) (ht : t.throws = true) :
    (hubPublish α subs v).latest = v
    ∧ (hubPublish α subs v).delivered = pre.map Subscriber.sid ++ [t.sid]
    ∧ (hubPublish α subs v).raised = true
    ∧ ∀ (subs2 : List Subscriber), (∀ u ∈ subs2, u.throws = false) →
        (hubPublish α subs2 v).delivered = subs2.map Subscriber.sid
        ∧ (hubPublish α subs2 v).raised = false := by
  subst hsplit
  refine ⟨rfl, ?_, ?_, ?_⟩
  · show (runListeners (pre ++ t :: rest)).1 = pre.map Subscriber.sid ++ [t.sid]
    induction pre with
    | nil => simp [runListeners, ht]
    | cons u us ih =>
        have hu : u.throws = false := hpre u (by simp)
        simp only [List.cons_append, runListeners, hu, Bool.false_eq_true,
          if_false, List.map_cons, List.cons_append, List.append_eq]
        rw [ih (fun w hw => hpre w (by simp [hw]))]
  · show (runListeners (pre ++ t :: rest)).2 = true
    induction pre with
    | nil => simp [runListeners, ht]
    | cons u us ih =>
        have hu : u.throws = false := hpre u (by simp)
        simp only [List.cons_append, runListeners, hu, Bool.false_eq_true,
          if_false, List.append_eq]
        exact ih (fun w hw => hpre w (by simp [hw]))
  · intro subs2 hok
    constructor
    · show (runListeners subs2).1 = subs2.map Subscriber.sid
      induction subs2 with
      | nil => rfl
      | cons u us ih =>
          have hu : u.throws = false := hok u (by simp)
          simp only [runListeners, hu, Bool.false_eq_true, if_false,
            List.map_cons]
          rw [ih (fun w hw => hok w (by simp [hw]))]
    · show (runListeners subs2).2 = false
      induction subs2 with
      | nil => rfl
      | cons u us ih =>
          have hu : u.throws = false := hok u (by simp)
          simp only [runListeners, hu, Bool.false_eq_true, if_false]
          exact ih (fun w hw => hok w (by simp [hw]))

/-- Witness for the amended C3 theorem at a concrete subscriber list. -/
theorem publish_updates_cell_then_delivers_in_order_witness :
    (hubPublish ℕ [⟨1, false⟩, ⟨2, true⟩, ⟨3, false⟩] (some 9)).latest = some 9
    ∧ (hubPublish ℕ [⟨1, false⟩, ⟨2, true⟩, ⟨3, false⟩] (some 9)).delivered
        = [1, 2]
    ∧ (hubPublish ℕ [⟨1, false⟩, ⟨2, true⟩, ⟨3, false⟩] (some 9)).raised = true
    ∧ ∀ (subs2 : List Subscriber), (∀ u ∈ subs2, u.throws = false) →
        (hubPublish ℕ subs2 (some 9)).delivered = subs2.map Subscriber.sid
        ∧ (hubPublish ℕ subs2 (some 9)).raised = false :=
  publish_updates_cell_then_delivers_in_order ℕ
    [⟨1, false⟩, ⟨2, true⟩, ⟨3, false⟩] [⟨1, false⟩] [⟨3, false⟩] ⟨2, true⟩
    (some 9) rfl (by decide) rfl

/- ### C4 — reconnect backoff tiering -/

/-- The idle (never-connected) status-hub state. -/
def statusIdle : StatusHub.State := ⟨none, false, false, false⟩

/-- C4 counterexample: the claim states every Hub delays reconnect attempt 6
by 60000 ms.  The status hub (robotStatusHub.ts) keeps no attempt counter and
its `scheduleReconnect` always uses the fixed base delay: six consecutive
connect failures each schedule the base delay (2000 ms with the default
configuration), so the sixth attempt is delayed 2000 ms, not 60000 ms. -/
theorem statusHub_sixth_attempt_uses_base_delay :
    (StatusHub.run 2000 statusIdle
        (List.replicate 6 StatusHub.Event.connectFail)).2
      = [StatusHub.Output.connectAttempted,
         StatusHub.Output.reconnectScheduled 2000,
         StatusHub.Output.connectAttempted,
         StatusHub.Output.reconnectScheduled 2000,
         StatusHub.Output.connectAttempted,
         StatusHub.Output.reconnectScheduled 2000,
         StatusHub.Output.connectAttempted,
         StatusHub.Output.reconnectScheduled 2000,
         StatusHub.Output.connectAttempted,
         StatusHub.Output.reconnectScheduled 2000,
         StatusHub.Output.connectAttempted,
         StatusHub.Output.reconnectScheduled 2000]
    ∧ (2000 : ℕ) ≠ 60000 := by
  refine ⟨rfl, ?_⟩
  decide

/-- C4 (amended): the map, robot-state, lidar, and floor-topology hubs
schedule reconnect attempt n with the tiered delay — the configurable base
(default `DEFAULT_GRPC_RECONNECT_MS = 2000`) for attempts 1–5, 60000 ms for
attempts 6–10, and 300000 ms beyond 10; their `scheduleReconnect` uses
exactly `getReconnectDelayMs base (attempt + 1)` while incrementing the
counter.  The status hub has no attempt counter and always schedules the
fixed base delay. -/
theorem reconnect_delay_tiers (base n : ℕ)
    (sM : MapHub.State) (sR : StateHub.State) (sL : LidarHub.State)
    (sT : TopoHub.State) (sS : StatusHub.State)
    (hM : sM.reconnectPending = false) (hR : sR.reconnectPending = false)
    (hL : sL.reconnectPending = false) (hT : sT.reconnectPending = false)
    (hTf : sT.fatalError = none) (hS : sS.reconnectPending = false) :
    ((1 ≤ n → n ≤ 5 → getReconnectDelayMs base n = base)
      ∧ (6 ≤ n → n ≤ 10 → getReconnectDelayMs base n = 60000)
      ∧ (10 < n → getReconnectDelayMs base n = 300000))
    ∧ DEFAULT_GRPC_RECONNECT_MS = 2000
    ∧ (MapHub.scheduleReconnect base sM).2
        = [MapHub.Output.reconnectScheduled
            (getReconnectDelayMs base (sM.reconnectAttempt + 1))]
    ∧ (MapHub.scheduleReconnect base sM).1.reconnectAttempt
        = sM.reconnectAttempt + 1
    ∧ (StateHub.scheduleReconnect base sR).2
        = [StateHub.Output.reconnectScheduled
            (getReconnectDelayMs base (sR.reconnectAttempt + 1))]
    ∧ (StateHub.scheduleReconnect base sR).1.reconnectAttempt
        = sR.reconnectAttempt + 1
    ∧ (LidarHub.scheduleReconnect base sL).2
        = [LidarHub.Output.reconnectScheduled
            (getReconnectDelayMs base (sL.reconnectAttempt + 1))]
    ∧ (LidarHub.scheduleReconnect base sL).1.reconnectAttempt
        = sL.reconnectAttempt + 1
    ∧ (TopoHub.scheduleReconnect base sT).2
        = [TopoHub.Output.reconnectScheduled
            (getReconnectDelayMs base (sT.reconnectAttempt + 1))]
    ∧ (TopoHub.scheduleReconnect base sT).1.reconnectAttempt
        = sT.reconnectAttempt + 1
    ∧ (StatusHub.scheduleReconnect base sS).2
        = [StatusHub.Output.reconnectScheduled base] := by
  refine ⟨⟨?_, ?_, ?_⟩, rfl, ?_, ?_, ?_, ?_, ?_, ?_, ?_, ?_, ?_⟩
  · intro _ h5
    simp [getReconnectDelayMs, h5]
  · intro h6 h10
    have h5 : ¬ n ≤ 5 := by omega
    simp [getReconnectDelayMs, h5, h10]
  · intro h10
    have h5 : ¬ n ≤ 5 := by omega
    have h10b : ¬ n ≤ 10 := by omega
    simp [getReconnectDelayMs, h5, h10b]
  · simp [MapHub.scheduleReconnect, hM]
  · simp [MapHub.scheduleReconnect, hM]
  · simp [StateHub.scheduleReconnect, hR]
  · simp [StateHub.scheduleReconnect, hR]
  · simp [LidarHub.scheduleReconnect, hL]
  · simp [LidarHub.scheduleReconnect, hL]
  · simp [TopoHub.scheduleReconnect, hT, hTf]
  · simp [TopoHub.scheduleReconnect, hT, hTf]
  · simp [StatusHub.scheduleReconnect, hS]

/-- Witness for the amended C4 theorem at concrete states and attempt 7. -/
theorem reconnect_delay_tiers_witness :
    ((1 ≤ 7 → 7 ≤ 5 → getReconnectDelayMs 2000 7 = 2000)
      ∧ (6 ≤ 7 → 7 ≤ 10 → getReconnectDelayMs 2000 7 = 60000)
      ∧ (10 < 7 → getReconnectDelayMs 2000 7 = 300000))
    ∧ DEFAULT_GRPC_RECONNECT_MS = 2000
    ∧ (MapHub.scheduleReconnect 2000 ⟨none, false, false, false, 6, false⟩).2
        = [MapHub.Output.reconnectScheduled (getReconnectDelayMs 2000 (6 + 1))]
    ∧ (MapHub.scheduleReconnect 2000
        ⟨none, false, false, false, 6, false⟩).1.reconnectAttempt = 6 + 1
    ∧ (StateHub.scheduleReconnect 2000 ⟨none, false, false, 6, false⟩).2
        = [StateHub.Output.reconnectScheduled
            (getReconnectDelayMs 2000 (6 + 1))]
    ∧ (StateHub.scheduleReconnect 2000
        ⟨none, false, false, 6, false⟩).1.reconnectAttempt = 6 + 1
    ∧ (LidarHub.scheduleReconnect 2000 ⟨none, false, false, false, 6, false⟩).2
        = [LidarHub.Output.reconnectScheduled
            (getReconnectDelayMs 2000 (6 + 1))]
    ∧ (LidarHub.scheduleReconnect 2000
        ⟨none, false, false, false, 6, false⟩).1.reconnectAttempt = 6 + 1
    ∧ (TopoHub.scheduleReconnect 2000
        ⟨none, false, false, false, 6, false, none⟩).2
        = [TopoHub.Output.reconnectScheduled (getReconnectDelayMs 2000 (6 + 1))]
    ∧ (TopoHub.scheduleReconnect 2000
        ⟨none, false, false, false, 6, false, none⟩).1.reconnectAttempt = 6 + 1
    ∧ (StatusHub.scheduleReconnect 2000 ⟨none, false, false, false⟩).2
        = [StatusHub.Output.reconnectScheduled 2000] :=
  reconnect_delay_tiers 2000 7
    ⟨none, false, false, false, 6, false⟩ ⟨none, false, false, 6, false⟩
    ⟨none, false, false, false, 6, false⟩
    ⟨none, false, false, false, 6, false, none⟩ ⟨none, false, false, false⟩
    rfl rfl rfl rfl rfl rfl

/- ### C5 — floor-topology frame contract -/

/-- A thrown frame violation inside the polyline loop aborts the whole
record's normalization with an error. -/
theorem normalizePolylines_error_of_mem (l : List RawFloorPolyline)
    (p : RawFloorPolyline) (e : String) (hp : p ∈ l)
    (he : normalizePolyline p = Except.error e) :
    ∃ e2, normalizePolylines l = Except.error e2 := by
  induction l with
  | nil => cases hp
  | cons x xs ih =>
    cases hx : normalizePolyline x with
    | error e3 => exact ⟨e3, by simp [normalizePolylines, hx]⟩
    | ok r =>
      rcases List.mem_cons.mp hp with hpx | hmem
      · rw [hpx, hx] at he
        cases he
      · obtain ⟨e2, h2⟩ := ih hmem
        cases r with
        | none => exact ⟨e2, by simp [normalizePolylines, hx, h2]⟩
        | some pl => exact ⟨e2, by simp [normalizePolylines, hx, h2]⟩

/-- C5 counterexample: the claim states that any polyline whose declared
frame differs from `base_footprint` is fatal rather than dropped.  The id
check runs first: a polyline with a negative id and frame `"map"` is
dropped (`return null`), not fatal. -/
theorem wrong_frame_polyline_dropped_on_bad_id :
    normalizePolyline
        ⟨none, some (JsNum.finite (-1)), some (JsVal.str "map"), none, none⟩
      = Except.ok none
    ∧ "map" ≠ EXPECTED_POLYLINE_FRAME_ID := by
  refine ⟨rfl, ?_⟩
  decide

/-- C5 (amended): provided the polyline passes the id check that precedes the
frame check (its coerced id is a finite, non-negative number — an absent id
coerces to 0 and passes), a declared frame different from `base_footprint`
throws a contract violation; the violation aborts normalization of the whole
record, and the data handler catches it with `failFatal`, which tears the
connection down (call and client released), publishes `null`, and marks the
hub fatal.  A polyline failing the id check is instead dropped without a
frame check. -/
theorem polyline_frame_contract_fatal (base : ℕ) :
    (∀ (raw : RawFloorPolyline) (q : ℚ),
        polylineIdNum raw = JsNum.finite q → ¬ q < 0 →
        polylineFrameId raw ≠ EXPECTED_POLYLINE_FRAME_ID →
        ∃ e, normalizePolyline raw = Except.error e)
    ∧ (∀ (rawU : RawFloorTopologyUpdate) (ts : ℚ)
          (l : List RawFloorPolyline) (p : RawFloorPolyline) (q : ℚ),
        numberOrNull rawU.timestamp_unix_ms = some ts →
        rawU.polylines = some l → p ∈ l →
        polylineIdNum p = JsNum.finite q → ¬ q < 0 →
        polylineFrameId p ≠ EXPECTED_POLYLINE_FRAME_ID →
        ∃ e, normalizeFloorTopologyUpdate rawU = Except.error e)
    ∧ (∀ (s : TopoHub.State) (rawU : RawFloorTopologyUpdate) (e : String),
        s.activeCall = true → s.fatalError = none →
        normalizeFloorTopologyUpdate rawU = Except.error e →
        (TopoHub.step base (TopoHub.Event.dataFrame rawU) s).1.fatalError
            = some e
        ∧ (TopoHub.step base (TopoHub.Event.dataFrame rawU) s).1.activeCall
            = false
        ∧ (TopoHub.step base (TopoHub.Event.dataFrame rawU) s).1.latestTopology
            = none
        ∧ (TopoHub.step base (TopoHub.Event.dataFrame rawU) s).2
            = [TopoHub.Output.published none]) := by
  have hpoly : ∀ (raw : RawFloorPolyline) (q : ℚ),
      polylineIdNum raw = JsNum.finite q → ¬ q < 0 →
      polylineFrameId raw ≠ EXPECTED_POLYLINE_FRAME_ID →
      ∃ e, normalizePolyline raw = Except.error e := by
    intro raw q hid hq hframe
    unfold normalizePolyline
    rw [hid]
    simp only [hq, hframe, ite_true, ite_false, if_neg, if_pos,
      not_false_eq_true, ne_eq, not_true_eq_false]
    exact ⟨_, rfl⟩
  refine ⟨hpoly, ?_, ?_⟩
  · intro rawU ts l p q hts hl hp hid hq hframe
    obtain ⟨e, he⟩ := hpoly p q hid hq hframe
    obtain ⟨e2, h2⟩ := normalizePolylines_error_of_mem l p e hp he
    refine ⟨e2, ?_⟩
    simp [normalizeFloorTopologyUpdate, hts, hl, h2]
  · intro s rawU e hA hF herr
    by_cases hg : s.gotDataSinceConnect
    · simp [TopoHub.step, hA, hF, hg, herr, TopoHub.failFatal]
    · simp [TopoHub.step, hA, hF, hg, herr, TopoHub.failFatal]

/-- A raw polyline with an absent id (coercing to 0) and frame `"map"`. -/
def pBadFrame : RawFloorPolyline :=
  ⟨none, none, some (JsVal.str "map"), none, none⟩

/-- A raw topology record with a valid timestamp carrying `pBadFrame`. -/
def rawUBadFrame : RawFloorTopologyUpdate :=
  ⟨some (JsNum.finite 1), none, some [pBadFrame]⟩

/-- An active, non-fatal floor-topology hub state. -/
def topoActive : TopoHub.State := ⟨none, false, false, true, 0, false, none⟩

/-- The error text thrown for `pBadFrame`. -/
def topoErrMsg : String :=
  "Unexpected FloorPolyline.frame_id=map ns= (expected base_footprint)"

/-- Witness for the amended C5 theorem: feeding the record with the
wrong-frame polyline to the active hub tears the stream down and marks the
hub fatal. -/
theorem polyline_frame_contract_fatal_witness :
    (TopoHub.step 2000 (TopoHub.Event.dataFrame rawUBadFrame)
        topoActive).1.fatalError = some topoErrMsg
    ∧ (TopoHub.step 2000 (TopoHub.Event.dataFrame rawUBadFrame)
        topoActive).1.activeCall = false
    ∧ (TopoHub.step 2000 (TopoHub.Event.dataFrame rawUBadFrame)
        topoActive).1.latestTopology = none
    ∧ (TopoHub.step 2000 (TopoHub.Event.dataFrame rawUBadFrame)
        topoActive).2 = [TopoHub.Output.published none] :=
  (polyline_frame_contract_fatal 2000).2.2 topoActive rawUBadFrame topoErrMsg
    rfl rfl rfl

/- ### C6 — fatal is terminal -/

/-- The fatal-state invariant of the floor-topology hub: a fatal message is
recorded, the snapshot is `null`, and no call is attached. -/
def TopoFatal (s : TopoHub.State) : Prop :=
  s.fatalError.isSome = true ∧ s.latestTopology = none ∧ s.activeCall = false

/-- One step preserves the fatal invariant, and the only output a fatal hub
can still produce is the `null` publish of a stale timer left over from
before the failure. -/
theorem topo_fatal_step (base : ℕ) (e : TopoHub.Event) (s : TopoHub.State)
    (h : TopoFatal s) :
    TopoFatal (TopoHub.step base e s).1
    ∧ ∀ o ∈ (TopoHub.step base e s).2, o = TopoHub.Output.published none := by
  obtain ⟨h1, h2, h3⟩ := h
  cases e with
  | connectOk =>
      refine ⟨?_, ?_⟩ <;> simp [TopoHub.step, h1, h3, TopoFatal, h2]
  | connectFail =>
      refine ⟨?_, ?_⟩ <;> simp [TopoHub.step, h1, h3, TopoFatal, h2]
  | dataFrame raw =>
      refine ⟨?_, ?_⟩ <;> simp [TopoHub.step, h1, h3, TopoFatal, h2]
  | streamError =>
      refine ⟨?_, ?_⟩ <;> simp [TopoHub.step, h1, h3, TopoFatal, h2]
  | streamEnd =>
      refine ⟨?_, ?_⟩ <;> simp [TopoHub.step, h1, h3, TopoFatal, h2]
  | staleFire =>
      by_cases harm : s.staleArmed
      · refine ⟨?_, ?_⟩ <;> simp [TopoHub.step, harm, TopoFatal, h1, h3]
      · refine ⟨?_, ?_⟩ <;> simp [TopoHub.step, harm, TopoFatal, h1, h2, h3]
  | consumerCall =>
      refine ⟨?_, ?_⟩ <;> simp [TopoHub.step, TopoFatal, h1, h2, h3]

/-- C6: once the floor-topology hub is fatal, the state is terminal under any
further event sequence — later `getSnapshot`/`subscribe` calls, stream
events, timer firings, and any elapsed amount of scheduled activity leave it
fatal, `getFloorTopologySnapshot` keeps returning `null`, and the hub never
attempts a connection nor schedules a reconnect (every remaining output is a
redundant `null` publish from a leftover stale timer, never
`connectAttempted` or `reconnectScheduled`). -/
theorem topo_fatal_terminal (base : ℕ) (evs : List TopoHub.Event) :
    ∀ (s : TopoHub.State), TopoFatal s →
      TopoFatal (TopoHub.run base s evs).1
      ∧ TopoHub.getFloorTopologySnapshot (TopoHub.run base s evs).1 = none
      ∧ ∀ o ∈ (TopoHub.run base s evs).2, o = TopoHub.Output.published none := by
  induction evs with
  | nil =>
      intro s h
      exact ⟨h, h.2.1, by simp [TopoHub.run]⟩
  | cons e rest ih =>
      intro s h
      have hstep := topo_fatal_step base e s h
      obtain ⟨g1, g2, g3⟩ := ih (TopoHub.step base e s).1 hstep.1
      refine ⟨g1, g2, ?_⟩
      intro o ho
      simp only [TopoHub.run, List.mem_append] at ho
      rcases ho with ho | ho
      · exact hstep.2 o ho
      · exact g3 o ho

/-- A concrete fatal floor-topology hub state (stale timer still armed). -/
def topoFatalSample : TopoHub.State :=
  ⟨none, true, false, false, 3, true, some "contract violation"⟩

/-- Witness for C6 at a concrete fatal state and a concrete event schedule
containing consumer calls, connect opportunities, stream events, and a timer
firing. -/
theorem topo_fatal_terminal_witness :
    TopoFatal (TopoHub.run 2000 topoFatalSample
        [TopoHub.Event.connectOk, TopoHub.Event.consumerCall,
         TopoHub.Event.connectFail, TopoHub.Event.staleFire,
         TopoHub.Event.streamError, TopoHub.Event.streamEnd]).1
    ∧ TopoHub.getFloorTopologySnapshot (TopoHub.run 2000 topoFatalSample
        [TopoHub.Event.connectOk, TopoHub.Event.consumerCall,
         TopoHub.Event.connectFail, TopoHub.Event.staleFire,
         TopoHub.Event.streamError, TopoHub.Event.streamEnd]).1 = none :=
  ⟨(topo_fatal_terminal 2000
      [TopoHub.Event.connectOk, TopoHub.Event.consumerCall,
       TopoHub.Event.connectFail, TopoHub.Event.staleFire,
       TopoHub.Event.streamError, TopoHub.Event.streamEnd]
      topoFatalSample ⟨rfl, rfl, rfl⟩).1,
   (topo_fatal_terminal 2000
      [TopoHub.Event.connectOk, TopoHub.Event.consumerCall,
       TopoHub.Event.connectFail, TopoHub.Event.staleFire,
       TopoHub.Event.streamError, TopoHub.Event.streamEnd]
      topoFatalSample ⟨rfl, rfl, rfl⟩).2.1⟩

/- ### C1 — publish-null-on-disconnect -/

/-- An active status-hub state holding a last-known value. -/
def statusActive : StatusHub.State := ⟨some sampleStatus, true, false, true⟩

/-- C1 counterexample: the claim states every Hub publishes `null` when the
upstream stream errors while Active.  The status hub's `onDisconnect`
(robotStatusHub.ts) only tears the call down and schedules a reconnect: on a
stream error the latest-value cell keeps the last-known status, nothing is
published to subscribers, and consumers keep observing the stale value until
the independent stale timer fires. -/
theorem statusHub_disconnect_keeps_last_value :
    (StatusHub.step 2000 StatusHub.Event.streamError statusActive).1.latestStatus
      = some sampleStatus
    ∧ (StatusHub.step 2000 StatusHub.Event.streamError statusActive).2
      = [StatusHub.Output.reconnectScheduled 2000]
    ∧ some sampleStatus ≠ (none : Option RobotStatus) := by
  refine ⟨rfl, rfl, ?_⟩
  simp

/-- C1 (amended): on a stream `error` or `end` event while a call is active,
the map, lidar, and floor-topology hubs publish `null` first (clearing the
latest-value cell and invoking the subscribers) and then schedule the
reconnect; the status and robot-state hubs do not publish at all on
disconnect — they keep the last-known value in the cell and only schedule a
reconnect (the status hub clears it later via its stale timer; the
robot-state hub has no stale timer and keeps it indefinitely). -/
theorem disconnect_publishes_null_only_in_map_lidar_topology (base : ℕ)
    (yawFn : ℚ → ℚ → ℚ → ℚ → JsNum) (b64 : List ℕ → String) :
    (∀ (s : MapHub.State) (e : MapHub.Event),
        (e = MapHub.Event.streamError ∨ e = MapHub.Event.streamEnd) →
        s.activeCall = true → s.reconnectPending = false →
        (MapHub.step base yawFn b64 e s).1.latestMap = none
        ∧ (MapHub.step base yawFn b64 e s).1.reconnectPending = true
        ∧ (MapHub.step base yawFn b64 e s).2
            = [MapHub.Output.published none,
               MapHub.Output.reconnectScheduled
                 (getReconnectDelayMs base (s.reconnectAttempt + 1))])
    ∧ (∀ (s : LidarHub.State) (e : LidarHub.Event),
        (e = LidarHub.Event.streamError ∨ e = LidarHub.Event.streamEnd) →
        s.activeCall = true → s.reconnectPending = false →
        (LidarHub.step base e s).1.latestScan = none
        ∧ (LidarHub.step base e s).1.reconnectPending = true
        ∧ (LidarHub.step base e s).2
            = [LidarHub.Output.published none,
               LidarHub.Output.reconnectScheduled
                 (getReconnectDelayMs base (s.reconnectAttempt + 1))])
    ∧ (∀ (s : TopoHub.State) (e : TopoHub.Event),
        (e = TopoHub.Event.streamError ∨ e = TopoHub.Event.streamEnd) →
        s.activeCall = true → s.fatalError = none → s.reconnectPending = false →
        (TopoHub.step base e s).1.latestTopology = none
        ∧ (TopoHub.step base e s).1.reconnectPending = true
        ∧ (TopoHub.step base e s).2
            = [TopoHub.Output.published none,
               TopoHub.Output.reconnectScheduled
                 (getReconnectDelayMs base (s.reconnectAttempt + 1))])
    ∧ (∀ (s : StatusHub.State) (e : StatusHub.Event),
        (e = StatusHub.Event.streamError ∨ e = StatusHub.Event.streamEnd) →
        s.activeCall = true → s.reconnectPending = false →
        (StatusHub.step base e s).1.latestStatus = s.latestStatus
        ∧ (StatusHub.step base e s).2
            = [StatusHub.Output.reconnectScheduled base])
    ∧ (∀ (s : StateHub.State) (e : StateHub.Event),
        (e = StateHub.Event.streamError ∨ e = StateHub.Event.streamEnd) →
        s.activeCall = true → s.reconnectPending = false →
        (StateHub.step base yawFn e s).1.latestState = s.latestState
        ∧ (StateHub.step base yawFn e s).2
            = [StateHub.Output.reconnectScheduled
                (getReconnectDelayMs base (s.reconnectAttempt + 1))]) := by
  refine ⟨?_, ?_, ?_, ?_, ?_⟩
  · intro s e he hA hP
    rcases he with he | he <;> subst he <;>
      simp [MapHub.step, MapHub.onDisconnect, MapHub.scheduleReconnect, hA, hP]
  · intro s e he hA hP
    rcases he with he | he <;> subst he <;>
      simp [LidarHub.step, LidarHub.onDisconnect, LidarHub.scheduleReconnect,
        hA, hP]
  · intro s e he hA hF hP
    rcases he with he | he <;> subst he <;>
      simp [TopoHub.step, TopoHub.onDisconnect, TopoHub.scheduleReconnect,
        hA, hF, hP]
  · intro s e he hA hP
    rcases he with he | he <;> subst he <;>
      simp [StatusHub.step, StatusHub.onDisconnect, StatusHub.scheduleReconnect,
        hA, hP]
  · intro s e he hA hP
    rcases he with he | he <;> subst he <;>
      simp [StateHub.step, StateHub.onDisconnect, StateHub.scheduleReconnect,
        hA, hP]

/-- An active map-hub state holding a last-known value. -/
def mapActive : MapHub.State := ⟨some sampleMap, true, false, true, 0, true⟩

/-- An active lidar-hub state holding a last-known value. -/
def lidarActive : LidarHub.State :=
  ⟨some sampleScan, true, false, true, 0, true⟩

/-- An active floor-topology hub state holding a last-known value. -/
def topoActiveWithData : TopoHub.State :=
  ⟨some sampleTopology, true, false, true, 0, true, none⟩

/-- An active robot-state hub state holding a last-known value. -/
def stateActive : StateHub.State := ⟨some sampleState, false, true, 0, true⟩

/-- Witness for the amended C1 theorem on a concrete stream error in each
hub. -/
theorem disconnect_publishes_null_only_in_map_lidar_topology_witness :
    ((MapHub.step 2000 yawStub b64Stub MapHub.Event.streamError
        mapActive).1.latestMap = none
      ∧ (MapHub.step 2000 yawStub b64Stub MapHub.Event.streamError
          mapActive).1.reconnectPending = true
      ∧ (MapHub.step 2000 yawStub b64Stub MapHub.Event.streamError
          mapActive).2
        = [MapHub.Output.published none,
           MapHub.Output.reconnectScheduled (getReconnectDelayMs 2000 (0 + 1))])
    ∧ ((LidarHub.step 2000 LidarHub.Event.streamError lidarActive).1.latestScan
        = none
      ∧ (LidarHub.step 2000 LidarHub.Event.streamError
          lidarActive).1.reconnectPending = true
      ∧ (LidarHub.step 2000 LidarHub.Event.streamError lidarActive).2
        = [LidarHub.Output.published none,
           LidarHub.Output.reconnectScheduled
             (getReconnectDelayMs 2000 (0 + 1))])
    ∧ ((TopoHub.step 2000 TopoHub.Event.streamError
        topoActiveWithData).1.latestTopology = none
      ∧ (TopoHub.step 2000 TopoHub.Event.streamError
          topoActiveWithData).1.reconnectPending = true
      ∧ (TopoHub.step 2000 TopoHub.Event.streamError topoActiveWithData).2
        = [TopoHub.Output.published none,
           TopoHub.Output.reconnectScheduled (getReconnectDelayMs 2000 (0 + 1))])
    ∧ ((StatusHub.step 2000 StatusHub.Event.streamError
        statusActive).1.latestStatus = statusActive.latestStatus
      ∧ (StatusHub.step 2000 StatusHub.Event.streamError statusActive).2
        = [StatusHub.Output.reconnectScheduled 2000])
    ∧ ((StateHub.step 2000 yawStub StateHub.Event.streamError
        stateActive).1.latestState = stateActive.latestState
      ∧ (StateHub.step 2000 yawStub StateHub.Event.streamError stateActive).2
        = [StateHub.Output.reconnectScheduled
            (getReconnectDelayMs 2000 (0 + 1))]) := by
  obtain ⟨hM, hL, hT, hS, hR⟩ :=
    disconnect_publishes_null_only_in_map_lidar_topology 2000 yawStub b64Stub
  exact ⟨hM mapActive MapHub.Event.streamError (Or.inl rfl) rfl rfl,
         hL lidarActive LidarHub.Event.streamError (Or.inl rfl) rfl rfl,
         hT topoActiveWithData TopoHub.Event.streamError (Or.inl rfl) rfl rfl
           rfl,
         hS statusActive StatusHub.Event.streamError (Or.inl rfl) rfl rfl,
         hR stateActive StateHub.Event.streamError (Or.inl rfl) rfl rfl⟩

/- ### C2 — staleness window -/

/-- C2 counterexample: the claim states every Hub arms a staleness timer on
each valid publish and clears to `null` when it fires.  The robot-state hub
(part_010) has no staleness timer — no stale-related variable or function
exists in its source; starting from an active hub holding a state snapshot,
disconnects, reconnects, and failures never publish `null` and never clear
the snapshot, so a consumer keeps reading the aging value indefinitely. -/
theorem stateHub_never_clears_stale_value :
    (StateHub.run 2000 yawStub stateActive
        [StateHub.Event.streamError, StateHub.Event.connectOk,
         StateHub.Event.streamEnd, StateHub.Event.connectFail]).1.latestState
      = some sampleState
    ∧ (StateHub.run 2000 yawStub stateActive
        [StateHub.Event.streamError, StateHub.Event.connectOk,
         StateHub.Event.streamEnd, StateHub.Event.connectFail]).2
      = [StateHub.Output.reconnectScheduled 2000,
         StateHub.Output.connectAttempted,
         StateHub.Output.reconnectScheduled 2000,
         StateHub.Output.connectAttempted,
         StateHub.Output.reconnectScheduled 2000]
    ∧ some sampleState ≠ (none : Option RobotState) := by
  refine ⟨rfl, rfl, ?_⟩
  simp

/-- C2 (amended): in the status, map, lidar, and floor-topology hubs every
successfully published valid frame (re)arms the one-shot stale timer; when
it fires with no fresh frame in between, the hub publishes `null` exactly
once for that gap — the snapshot getter then returns `null`, the subscribers
are invoked with `null`, the timer is spent, and a second firing without a
new frame is impossible.  The robot-state hub has no staleness timer: no
event other than a data frame ever changes its latest-value cell, so its
snapshot is never cleared for staleness. -/
theorem stale_timer_clears_once (base : ℕ)
    (yawFn : ℚ → ℚ → ℚ → ℚ → JsNum) (b64 : List ℕ → String) :
    (∀ (s : StatusHub.State) (raw : RawStatusUpdate) (v : RobotStatus),
        s.activeCall = true → normalizeStatusUpdate raw = some v →
        (StatusHub.step base (StatusHub.Event.dataFrame raw) s).1.staleArmed
          = true
        ∧ (StatusHub.step base (StatusHub.Event.dataFrame raw) s).1.latestStatus
          = some v)
    ∧ (∀ (s : StatusHub.State), s.staleArmed = true →
        StatusHub.getRobotStatusSnapshot
            (StatusHub.step base StatusHub.Event.staleFire s).1 = none
        ∧ (StatusHub.step base StatusHub.Event.staleFire s).2
            = [StatusHub.Output.published none]
        ∧ (StatusHub.step base StatusHub.Event.staleFire
            (StatusHub.step base StatusHub.Event.staleFire s).1).2 = [])
    ∧ (∀ (s : MapHub.State) (raw : RawMapUpdate) (v : OccupancyMap),
        s.activeCall = true → normalizeMapUpdate yawFn b64 raw = some v →
        (MapHub.step base yawFn b64 (MapHub.Event.dataFrame raw) s).1.staleArmed
          = true
        ∧ (MapHub.step base yawFn b64 (MapHub.Event.dataFrame raw) s).1.latestMap
          = some v)
    ∧ (∀ (s : MapHub.State), s.staleArmed = true →
        MapHub.getOccupancyMapSnapshot
            (MapHub.step base yawFn b64 MapHub.Event.staleFire s).1 = none
        ∧ (MapHub.step base yawFn b64 MapHub.Event.staleFire s).2
            = [MapHub.Output.published none]
        ∧ (MapHub.step base yawFn b64 MapHub.Event.staleFire
            (MapHub.step base yawFn b64 MapHub.Event.staleFire s).1).2 = [])
    ∧ (∀ (s : LidarHub.State) (raw : RawLidarUpdate) (v : LidarScan),
        s.activeCall = true → normalizeLidarUpdate raw = some v →
        (LidarHub.step base (LidarHub.Event.dataFrame raw) s).1.staleArmed
          = true
        ∧ (LidarHub.step base (LidarHub.Event.dataFrame raw) s).1.latestScan
          = some v)
    ∧ (∀ (s : LidarHub.State), s.staleArmed = true →
        LidarHub.getLidarScanSnapshot
            (LidarHub.step base LidarHub.Event.staleFire s).1 = none
        ∧ (LidarHub.step base LidarHub.Event.staleFire s).2
            = [LidarHub.Output.published none]
        ∧ (LidarHub.step base LidarHub.Event.staleFire
            (LidarHub.step base LidarHub.Event.staleFire s).1).2 = [])
    ∧ (∀ (s : TopoHub.State) (raw : RawFloorTopologyUpdate) (v : FloorTopology),
        s.activeCall = true → s.fatalError = none →
        normalizeFloorTopologyUpdate raw = Except.ok (some v) →
        (TopoHub.step base (TopoHub.Event.dataFrame raw) s).1.staleArmed = true
        ∧ (TopoHub.step base (TopoHub.Event.dataFrame raw) s).1.latestTopology
          = some v)
    ∧ (∀ (s : TopoHub.State), s.staleArmed = true →
        TopoHub.getFloorTopologySnapshot
            (TopoHub.step base TopoHub.Event.staleFire s).1 = none
        ∧ (TopoHub.step base TopoHub.Event.staleFire s).2
            = [TopoHub.Output.published none]
        ∧ (TopoHub.step base TopoHub.Event.staleFire
            (TopoHub.step base TopoHub.Event.staleFire s).1).2 = [])
    ∧ (∀ (s : StateHub.State) (e : StateHub.Event),
        (∀ raw, e ≠ StateHub.Event.dataFrame raw) →
        (StateHub.step base yawFn e s).1.latestState = s.latestState) := by
  refine ⟨?_, ?_, ?_, ?_, ?_, ?_, ?_, ?_, ?_⟩
  · intro s raw v hA hn
    simp [StatusHub.step, hA, hn]
  · intro s harm
    simp [StatusHub.step, harm, StatusHub.getRobotStatusSnapshot]
  · intro s raw v hA hn
    by_cases hg : s.gotDataSinceConnect <;>
      simp [MapHub.step, hA, hn, hg]
  · intro s harm
    simp [MapHub.step, harm, MapHub.getOccupancyMapSnapshot]
  · intro s raw v hA hn
    by_cases hg : s.gotDataSinceConnect <;>
      simp [LidarHub.step, hA, hn, hg]
  · intro s harm
    simp [LidarHub.step, harm, LidarHub.getLidarScanSnapshot]
  · intro s raw v hA hF hn
    by_cases hg : s.gotDataSinceConnect <;>
      simp [TopoHub.step, hA, hF, hn, hg]
  · intro s harm
    simp [TopoHub.step, harm, TopoHub.getFloorTopologySnapshot]
  · intro s e he
    cases e with
    | connectOk =>
        by_cases hA : s.activeCall <;> simp [StateHub.step, hA]
    | connectFail =>
        by_cases hA : s.activeCall <;>
        by_cases hP : s.reconnectPending <;>
          simp [StateHub.step, StateHub.scheduleReconnect, hA, hP]
    | dataFrame raw => exact absurd rfl (he raw)
    | streamError =>
        by_cases hA : s.activeCall <;>
        by_cases hP : s.reconnectPending <;>
          simp [StateHub.step, StateHub.onDisconnect,
            StateHub.scheduleReconnect, hA, hP]
    | streamEnd =>
        by_cases hA : s.activeCall <;>
        by_cases hP : s.reconnectPending <;>
          simp [StateHub.step, StateHub.onDisconnect,
            StateHub.scheduleReconnect, hA, hP]

/-- A raw status record normalizing to `sampleStatus`. -/
def rawStatusGood : RawStatusUpdate :=
  ⟨some (JsNum.finite 1000), some (JsVal.str "5"), some (JsNum.finite 10),
   none, none⟩

/-- A raw map record (with a byte png payload) normalizing to `sampleMap`
under the `b64Stub` encoder. -/
def rawMapGood : RawMapUpdate :=
  ⟨some (JsNum.finite 1000), some (JsVal.str "5"), some (JsVal.str "map"),
   some (JsNum.finite 1), some (JsNum.finite 100), some (JsNum.finite 100),
   none, some (JsVal.bytes [0])⟩

/-- A raw lidar record normalizing to `sampleScan`. -/
def rawLidarGood : RawLidarUpdate :=
  ⟨some (JsNum.finite 1000), some (JsVal.str "5"), some (JsVal.str "laser"),
   some (JsNum.finite 0), some (JsNum.finite 1), some (JsNum.finite 0),
   some (JsNum.finite 10), some [JsNum.finite 2]⟩

/-- A raw topology record normalizing to `sampleTopology`. -/
def rawTopoGood : RawFloorTopologyUpdate :=
  ⟨some (JsNum.finite 1000), some (JsVal.str "5"), some []⟩

/-- Witness for the amended C2 theorem at concrete states and records. -/
theorem stale_timer_clears_once_witness :
    ((StatusHub.step 2000 (StatusHub.Event.dataFrame rawStatusGood)
        statusActive).1.staleArmed = true
      ∧ (StatusHub.step 2000 (StatusHub.Event.dataFrame rawStatusGood)
          statusActive).1.latestStatus = some sampleStatus)
    ∧ (StatusHub.getRobotStatusSnapshot
        (StatusHub.step 2000 StatusHub.Event.staleFire statusActive).1 = none
      ∧ (StatusHub.step 2000 StatusHub.Event.staleFire statusActive).2
          = [StatusHub.Output.published none]
      ∧ (StatusHub.step 2000 StatusHub.Event.staleFire
          (StatusHub.step 2000 StatusHub.Event.staleFire statusActive).1).2
          = [])
    ∧ ((MapHub.step 2000 yawStub b64Stub (MapHub.Event.dataFrame rawMapGood)
        mapActive).1.staleArmed = true
      ∧ (MapHub.step 2000 yawStub b64Stub (MapHub.Event.dataFrame rawMapGood)
          mapActive).1.latestMap = some sampleMap)
    ∧ ((LidarHub.step 2000 (LidarHub.Event.dataFrame rawLidarGood)
        lidarActive).1.staleArmed = true
      ∧ (LidarHub.step 2000 (LidarHub.Event.dataFrame rawLidarGood)
          lidarActive).1.latestScan = some sampleScan)
    ∧ ((TopoHub.step 2000 (TopoHub.Event.dataFrame rawTopoGood)
        topoActiveWithData).1.staleArmed = true
      ∧ (TopoHub.step 2000 (TopoHub.Event.dataFrame rawTopoGood)
          topoActiveWithData).1.latestTopology = some sampleTopology)
    ∧ (StateHub.step 2000 yawStub StateHub.Event.streamError
        stateActive).1.latestState = stateActive.latestState := by
  obtain ⟨h1, h2, h3, _h4, h5, _h6, h7, _h8, h9⟩ :=
    stale_timer_clears_once 2000 yawStub b64Stub
  exact ⟨h1 statusActive rawStatusGood sampleStatus rfl rfl,
         h2 statusActive rfl,
         h3 mapActive rawMapGood sampleMap rfl rfl,
         h5 lidarActive rawLidarGood sampleScan rfl rfl,
         h7 topoActiveWithData rawTopoGood sampleTopology rfl rfl rfl,
         h9 stateActive StateHub.Event.streamError
           (by intro raw h; cases h)⟩

/- ### C7 — attempt counter resets on first data, not on connect -/

/-- C7: in each of the four hubs that keep a reconnect attempt counter (the
robot-state, map, lidar, and floor-topology hubs — the status hub has none),
establishing a connection (`startGrpcLoop` succeeding) leaves the counter
unchanged, a stream error arriving before any data frame increments it (via
`scheduleReconnect`), and the first data frame after a connect — valid or
not — resets it to zero. -/
theorem attempt_counter_resets_on_first_data (base : ℕ)
    (yawFn : ℚ → ℚ → ℚ → ℚ → JsNum) (b64 : List ℕ → String) :
    (∀ (s : StateHub.State), s.activeCall = false →
        (StateHub.step base yawFn StateHub.Event.connectOk s).1.reconnectAttempt
          = s.reconnectAttempt)
    ∧ (∀ (s : StateHub.State), s.activeCall = true →
        s.gotDataSinceConnect = false → s.reconnectPending = false →
        (StateHub.step base yawFn StateHub.Event.streamError
          s).1.reconnectAttempt = s.reconnectAttempt + 1)
    ∧ (∀ (s : StateHub.State) (raw : RawRobotStateUpdate),
        s.activeCall = true → s.gotDataSinceConnect = false →
        (StateHub.step base yawFn (StateHub.Event.dataFrame raw)
          s).1.reconnectAttempt = 0)
    ∧ (∀ (s : MapHub.State), s.activeCall = false →
        (MapHub.step base yawFn b64 MapHub.Event.connectOk
          s).1.reconnectAttempt = s.reconnectAttempt)
    ∧ (∀ (s : MapHub.State), s.activeCall = true →
        s.gotDataSinceConnect = false → s.reconnectPending = false →
        (MapHub.step base yawFn b64 MapHub.Event.streamError
          s).1.reconnectAttempt = s.reconnectAttempt + 1)
    ∧ (∀ (s : MapHub.State) (raw : RawMapUpdate),
        s.activeCall = true → s.gotDataSinceConnect = false →
        (MapHub.step base yawFn b64 (MapHub.Event.dataFrame raw)
          s).1.reconnectAttempt = 0)
    ∧ (∀ (s : LidarHub.State), s.activeCall = false →
        (LidarHub.step base LidarHub.Event.connectOk s).1.reconnectAttempt
          = s.reconnectAttempt)
    ∧ (∀ (s : LidarHub.State), s.activeCall = true →
        s.gotDataSinceConnect = false → s.reconnectPending = false →
        (LidarHub.step base LidarHub.Event.streamError s).1.reconnectAttempt
          = s.reconnectAttempt + 1)
    ∧ (∀ (s : LidarHub.State) (raw : RawLidarUpdate),
        s.activeCall = true → s.gotDataSinceConnect = false →
        (LidarHub.step base (LidarHub.Event.dataFrame raw)
          s).1.reconnectAttempt = 0)
    ∧ (∀ (s : TopoHub.State), s.activeCall = false → s.fatalError = none →
        (TopoHub.step base TopoHub.Event.connectOk s).1.reconnectAttempt
          = s.reconnectAttempt)
    ∧ (∀ (s : TopoHub.State), s.activeCall = true →
        s.gotDataSinceConnect = false → s.reconnectPending = false →
        s.fatalError = none →
        (TopoHub.step base TopoHub.Event.streamError s).1.reconnectAttempt
          = s.reconnectAttempt + 1)
    ∧ (∀ (s : TopoHub.State) (raw : RawFloorTopologyUpdate),
        s.activeCall = true → s.gotDataSinceConnect = false →
        s.fatalError = none →
        (TopoHub.step base (TopoHub.Event.dataFrame raw)
          s).1.reconnectAttempt = 0) := by
  refine ⟨?_, ?_, ?_, ?_, ?_, ?_, ?_, ?_, ?_, ?_, ?_, ?_⟩
  · intro s hA
    simp [StateHub.step, hA]
  · intro s hA hG hP
    simp [StateHub.step, StateHub.onDisconnect, StateHub.scheduleReconnect,
      hA, hP]
  · intro s raw hA hG
    cases hn : normalizeRobotStateUpdate yawFn raw <;>
      simp [StateHub.step, hA, hG, hn]
  · intro s hA
    simp [MapHub.step, hA]
  · intro s hA hG hP
    simp [MapHub.step, MapHub.onDisconnect, MapHub.scheduleReconnect, hA, hP]
  · intro s raw hA hG
    cases hn : normalizeMapUpdate yawFn b64 raw <;>
      simp [MapHub.step, hA, hG, hn]
  · intro s hA
    simp [LidarHub.step, hA]
  · intro s hA hG hP
    simp [LidarHub.step, LidarHub.onDisconnect, LidarHub.scheduleReconnect,
      hA, hP]
  · intro s raw hA hG
    cases hn : normalizeLidarUpdate raw <;>
      simp [LidarHub.step, hA, hG, hn]
  · intro s hA hF
    simp [TopoHub.step, hA, hF]
  · intro s hA hG hP hF
    simp [TopoHub.step, TopoHub.onDisconnect, TopoHub.scheduleReconnect,
      hA, hP, hF]
  · intro s raw hA hG hF
    cases hn : normalizeFloorTopologyUpdate raw with
    | error e => simp [TopoHub.step, hA, hG, hF, hn, TopoHub.failFatal]
    | ok r => cases r <;> simp [TopoHub.step, hA, hG, hF, hn]

/-- A freshly connected robot-state hub that has not yet received data, with
three failed attempts on the counter. -/
def stateFresh : StateHub.State := ⟨none, false, true, 3, false⟩

/-- A freshly connected map hub (no data yet, three failed attempts). -/
def mapFresh : MapHub.State := ⟨none, false, false, true, 3, false⟩

/-- A freshly connected lidar hub (no data yet, three failed attempts). -/
def lidarFresh : LidarHub.State := ⟨none, false, false, true, 3, false⟩

/-- A freshly connected floor-topology hub (no data yet, three failed
attempts). -/
def topoFresh : TopoHub.State := ⟨none, false, false, true, 3, false, none⟩

/-- A disconnected robot-state hub with three failed attempts. -/
def stateDown : StateHub.State := ⟨none, false, false, 3, false⟩

/-- A disconnected map hub with three failed attempts. -/
def mapDown : MapHub.State := ⟨none, false, false, false, 3, false⟩

/-- A disconnected lidar hub with three failed attempts. -/
def lidarDown : LidarHub.State := ⟨none, false, false, false, 3, false⟩

/-- A disconnected floor-topology hub with three failed attempts. -/
def topoDown : TopoHub.State := ⟨none, false, false, false, 3, false, none⟩

/-- An empty raw robot-state record. -/
def rawStateEmpty : RawRobotStateUpdate := ⟨none, none, none, none, none⟩

/-- An empty raw map record. -/
def rawMapEmpty : RawMapUpdate := ⟨none, none, none, none, none, none, none, none⟩

/-- An empty raw lidar record. -/
def rawLidarEmpty : RawLidarUpdate :=
  ⟨none, none, none, none, none, none, none, none⟩

/-- An empty raw topology record. -/
def rawTopoEmpty : RawFloorTopologyUpdate := ⟨none, none, none⟩

/-- Witness for C7 at concrete states: connecting keeps the counter at 3, a
pre-data error bumps it to 4, and the first (even invalid) data frame resets
it to 0, in each of the four counter-keeping hubs. -/
theorem attempt_counter_resets_on_first_data_witness :
    (StateHub.step 2000 yawStub StateHub.Event.connectOk
        stateDown).1.reconnectAttempt = 3
    ∧ (StateHub.step 2000 yawStub StateHub.Event.streamError
        stateFresh).1.reconnectAttempt = 3 + 1
    ∧ (StateHub.step 2000 yawStub (StateHub.Event.dataFrame rawStateEmpty)
        stateFresh).1.reconnectAttempt = 0
    ∧ (MapHub.step 2000 yawStub b64Stub MapHub.Event.connectOk
        mapDown).1.reconnectAttempt = 3
    ∧ (MapHub.step 2000 yawStub b64Stub MapHub.Event.streamError
        mapFresh).1.reconnectAttempt = 3 + 1
    ∧ (MapHub.step 2000 yawStub b64Stub (MapHub.Event.dataFrame rawMapEmpty)
        mapFresh).1.reconnectAttempt = 0
    ∧ (LidarHub.step 2000 LidarHub.Event.connectOk
        lidarDown).1.reconnectAttempt = 3
    ∧ (LidarHub.step 2000 LidarHub.Event.streamError
        lidarFresh).1.reconnectAttempt = 3 + 1
    ∧ (LidarHub.step 2000 (LidarHub.Event.dataFrame rawLidarEmpty)
        lidarFresh).1.reconnectAttempt = 0
    ∧ (TopoHub.step 2000 TopoHub.Event.connectOk topoDown).1.reconnectAttempt
        = 3
    ∧ (TopoHub.step 2000 TopoHub.Event.streamError
        topoFresh).1.reconnectAttempt = 3 + 1
    ∧ (TopoHub.step 2000 (TopoHub.Event.dataFrame rawTopoEmpty)
        topoFresh).1.reconnectAttempt = 0 := by
  obtain ⟨h1, h2, h3, h4, h5, h6, h7, h8, h9, h10, h11, h12⟩ :=
    attempt_counter_resets_on_first_data 2000 yawStub b64Stub
  exact ⟨h1 stateDown rfl, h2 stateFresh rfl rfl rfl,
         h3 stateFresh rawStateEmpty rfl rfl,
         h4 mapDown rfl, h5 mapFresh rfl rfl rfl,
         h6 mapFresh rawMapEmpty rfl rfl,
         h7 lidarDown rfl, h8 lidarFresh rfl rfl rfl,
         h9 lidarFresh rawLidarEmpty rfl rfl,
         h10 topoDown rfl rfl, h11 topoFresh rfl rfl rfl rfl,
         h12 topoFresh rawTopoEmpty rfl rfl rfl⟩

/- ### C8 — rate-limited retry logger -/

/-- C8 counterexample: the claim states that on eventual success the logger
reports the count of suppressed failures and their duration.  In the code
`markSuccess` only calls `reset()` and writes nothing: after one logged and
one suppressed failure, `markSuccess` produces no log line even though one
failure was suppressed. -/
theorem markSuccess_reports_nothing :
    ((logFailure 1000 (logFailure 0 (createRetryLogger 0)).1).1).suppressed = 1
    ∧ (markSuccess 2000
        (logFailure 1000 (logFailure 0 (createRetryLogger 0)).1).1).2 = none := by
  exact ⟨rfl, rfl⟩

/-- C8 (amended): the shared retry logger logs the first failure immediately
(reporting `hidden=0 over=0`), suppresses failures arriving within the
current window (initially one minute), and on the next logged failure after
the window expires reports the suppressed count and the duration since the
window started while widening the window to five minutes; on success it
resets its window and counters silently, reporting nothing. -/
theorem retry_logger_windows (now last : ℤ) (s : RetryLoggerState) :
    (s.lastLoggedAt = none →
        logFailure now s = (⟨some now, ONE_MIN_MS, 0, now⟩, some ⟨0, 0⟩))
    ∧ (s.lastLoggedAt = some last → now - last < s.nextWindowMs →
        logFailure now s = ({ s with suppressed := s.suppressed + 1 }, none))
    ∧ (s.lastLoggedAt = some last → ¬ now - last < s.nextWindowMs →
        logFailure now s
          = (⟨some now, FIVE_MIN_MS, 0, now⟩,
             some ⟨s.suppressed, now - s.windowStart⟩))
    ∧ markSuccess now s = (createRetryLogger now, none)
    ∧ createRetryLogger now = ⟨none, ONE_MIN_MS, 0, now⟩ := by
  refine ⟨?_, ?_, ?_, rfl, rfl⟩
  · intro h
    simp [logFailure, h]
  · intro h hw
    simp [logFailure, h, hw]
  · intro h hw
    simp [logFailure, h, hw]

/-- Witness for the amended C8 theorem on a concrete failure/success trace:
first failure at t=0 logged with nothing hidden; a failure at t=1000 (inside
the one-minute window) suppressed; a failure at t=61000 logged reporting one
suppressed failure over 61 s; success resetting silently. -/
theorem retry_logger_windows_witness :
    logFailure 0 (createRetryLogger 0)
      = (⟨some 0, ONE_MIN_MS, 0, 0⟩, some ⟨0, 0⟩)
    ∧ logFailure 1000 (⟨some 0, ONE_MIN_MS, 0, 0⟩ : RetryLoggerState)
      = (⟨some 0, ONE_MIN_MS, 1, 0⟩, none)
    ∧ logFailure 61000 (⟨some 0, ONE_MIN_MS, 1, 0⟩ : RetryLoggerState)
      = (⟨some 61000, FIVE_MIN_MS, 0, 61000⟩, some ⟨1, 61000⟩)
    ∧ markSuccess 61500 (⟨some 61000, FIVE_MIN_MS, 0, 61000⟩ : RetryLoggerState)
      = (createRetryLogger 61500, none) := by
  refine ⟨?_, ?_, ?_, ?_⟩
  · exact (retry_logger_windows 0 0 (createRetryLogger 0)).1 rfl
  · exact (retry_logger_windows 1000 0
      (⟨some 0, ONE_MIN_MS, 0, 0⟩ : RetryLoggerState)).2.1 rfl (by decide)
  · exact (retry_logger_windows 61000 0
      (⟨some 0, ONE_MIN_MS, 1, 0⟩ : RetryLoggerState)).2.2.1 rfl (by decide)
  · exact (retry_logger_windows 61500 0
      (⟨some 61000, FIVE_MIN_MS, 0, 61000⟩ : RetryLoggerState)).2.2.2.1

/- ### C9 — default-vs-absent fidelity -/

/-- C9: omitted zero-defaultable scalars resolve to their defined defaults —
an absent pose coordinate or quaternion component resolves to 0 (and `qw` to
1) in `normalizePose3D`, and an absent sequence resolves to "0" in
`normalizeSeq` — while the presence-sensitive optional voltage stays absent:
`normalizeStatusUpdate` leaves `voltageV` unset when `voltage_v` is missing,
never substituting a default. -/
theorem defaults_for_elided_scalars_and_absent_voltage
    (yawFn : ℚ → ℚ → ℚ → ℚ → JsNum) (raw : RawPose3D) (u : RawStatusUpdate)
    (ts cpu : ℚ)
    (hx : raw.x = none) (hy : raw.y = none) (hz : raw.z = none)
    (hqx : raw.qx = none) (hqy : raw.qy = none) (hqz : raw.qz = none)
    (hqw : raw.qw = none)
    (hts : u.timestamp_unix_ms = some (JsNum.finite ts))
    (hcpu : u.cpu_percent = some (JsNum.finite cpu))
    (hv : u.voltage_v = none) :
    (normalizePose3D yawFn (some raw)).map Pose3D.x = some 0
    ∧ (normalizePose3D yawFn (some raw)).map Pose3D.y = some 0
    ∧ (normalizePose3D yawFn (some raw)).map Pose3D.z = some 0
    ∧ (normalizePose3D yawFn (some raw)).map Pose3D.qx = some 0
    ∧ (normalizePose3D yawFn (some raw)).map Pose3D.qy = some 0
    ∧ (normalizePose3D yawFn (some raw)).map Pose3D.qz = some 0
    ∧ (normalizePose3D yawFn (some raw)).map Pose3D.qw = some 1
    ∧ normalizeSeq none = "0"
    ∧ (normalizeStatusUpdate u).map RobotStatus.voltageV = some none := by
  refine ⟨?_, ?_, ?_, ?_, ?_, ?_, ?_, rfl, ?_⟩ <;>
    simp [normalizePose3D, poseField, numberOrDefault, hx, hy, hz, hqx, hqy,
      hqz, hqw, normalizeStatusUpdate, hts, hcpu, hv, jsToNumber]

/-- A raw pose with every scalar omitted. -/
def rawPoseEmpty : RawPose3D := ⟨none, none, none, none, none, none, none, none⟩

/-- Witness for C9 at the all-omitted pose and the voltage-less status
record. -/
theorem defaults_for_elided_scalars_and_absent_voltage_witness :
    (normalizePose3D yawStub (some rawPoseEmpty)).map Pose3D.x = some 0
    ∧ (normalizePose3D yawStub (some rawPoseEmpty)).map Pose3D.y = some 0
    ∧ (normalizePose3D yawStub (some rawPoseEmpty)).map Pose3D.z = some 0
    ∧ (normalizePose3D yawStub (some rawPoseEmpty)).map Pose3D.qx = some 0
    ∧ (normalizePose3D yawStub (some rawPoseEmpty)).map Pose3D.qy = some 0
    ∧ (normalizePose3D yawStub (some rawPoseEmpty)).map Pose3D.qz = some 0
    ∧ (normalizePose3D yawStub (some rawPoseEmpty)).map Pose3D.qw = some 1
    ∧ normalizeSeq none = "0"
    ∧ (normalizeStatusUpdate rawStatusGood).map RobotStatus.voltageV
        = some none :=
  defaults_for_elided_scalars_and_absent_voltage yawStub rawPoseEmpty
    rawStatusGood 1000 10 rfl rfl rfl rfl rfl rfl rfl rfl rfl rfl

/- ### C10 — lidar ranges are kept unchecked -/

/-- A raw lidar record with finite headers whose ranges contain NaN and
Infinity. -/
def rawLidarNonFinite : RawLidarUpdate :=
  ⟨some (JsNum.finite 1000), some (JsVal.str "5"), some (JsVal.str "laser"),
   some (JsNum.finite 0), some (JsNum.finite 1), some (JsNum.finite 0),
   some (JsNum.finite 10), some [JsNum.nan, JsNum.posInf, JsNum.finite 2]⟩

/-- The scan `rawLidarNonFinite` normalizes to. -/
def scanNonFinite : LidarScan :=
  ⟨1000, "5", "laser", 0, 1, 0, 10, [JsNum.nan, JsNum.posInf, JsNum.finite 2]⟩

/-- C10: `normalizeLidarUpdate` checks finiteness only of the scalar header
fields — a record whose headers are finite but whose ranges contain NaN and
Infinity is accepted, and the resulting `LidarScan`, as published by the
lidar hub's data handler, carries the non-finite entries unchanged; by
contrast a non-finite header (here `range_min = NaN`) rejects the record. -/
theorem lidar_ranges_pass_nonfinite_values :
    normalizeLidarUpdate rawLidarNonFinite = some scanNonFinite
    ∧ (normalizeLidarUpdate rawLidarNonFinite).map
        (fun scan => scan.ranges.all jsIsFinite) = some false
    ∧ normalizeLidarUpdate
        { rawLidarNonFinite with range_min := some JsNum.nan } = none
    ∧ (LidarHub.step 2000 (LidarHub.Event.dataFrame rawLidarNonFinite)
        lidarActive).2
      = [LidarHub.Output.published (some scanNonFinite)] := by
  exact ⟨rfl, rfl, rfl, rfl⟩
